import Mathlib

/-!
Verification of the UPDI NVM programming core (`pymcuprog/serialupdi/nvm.py`).

The Python module drives an NVM controller through a memory link
(`readwrite`): it reads the controller status register, writes command codes
to the control register and writes payload bytes into target memory.  The
shallow embedding below models one controller session as a pure state
transformer:

* the environment `Env` fixes the stream of status-register values the
  device will return (the i-th status read overall yields `env.status i`,
  truncated to a byte);
* the state `St` records how many status reads have happened and the
  ordered trace of link operations (`Event`s) issued so far;
* the 10-second deadline of a ready-wait is modelled by a fuel bound
  `fuel`: the number of status reads one `Timeout(10000)` window allows;
* a Python `raise` becomes an `Except.error` carrying the exception class
  and message from the source.

Every operation of the two controller classes (`NvmUpdiTinyMega`,
generation 0, and `NvmUpdiAvrDx`, generation 1) is translated line by
line from the source.
-/

/-- Modelled from the spec: the register offsets, status bit positions and
command codes live in the repository's `constants` module, which is not part
of the source under verification; only their names appear in `nvm.py`.  The
spec (§3, §6) fixes them as generation-specific distinct constants; the
values below are the documented NVMCTRL layout these names refer to.  None
of the proofs depend on the particular numbers, only on which name is
written where. -/
def UPDI_NVMCTRL_CTRLA : Nat := 0x00

def UPDI_NVMCTRL_STATUS : Nat := 0x02

def UPDI_NVMCTRL_DATAL : Nat := 0x06

def UPDI_NVMCTRL_ADDRL : Nat := 0x08

def UPDI_NVMCTRL_ADDRH : Nat := 0x09

def UPDI_NVM_STATUS_WRITE_ERROR : Nat := 2

def UPDI_NVM_STATUS_EEPROM_BUSY : Nat := 1

def UPDI_NVM_STATUS_FLASH_BUSY : Nat := 0

def UPDI_V0_NVMCTRL_CTRLA_WRITE_PAGE : Nat := 0x01

def UPDI_V0_NVMCTRL_CTRLA_ERASE_PAGE : Nat := 0x02

def UPDI_V0_NVMCTRL_CTRLA_ERASE_WRITE_PAGE : Nat := 0x03

def UPDI_V0_NVMCTRL_CTRLA_PAGE_BUFFER_CLR : Nat := 0x04

def UPDI_V0_NVMCTRL_CTRLA_CHIP_ERASE : Nat := 0x05

def UPDI_V0_NVMCTRL_CTRLA_ERASE_EEPROM : Nat := 0x06

def UPDI_V0_NVMCTRL_CTRLA_WRITE_FUSE : Nat := 0x07

def UPDI_V1_NVMCTRL_CTRLA_NOCMD : Nat := 0x00

def UPDI_V1_NVMCTRL_CTRLA_FLASH_WRITE : Nat := 0x02

def UPDI_V1_NVMCTRL_CTRLA_FLASH_PAGE_ERASE : Nat := 0x08

def UPDI_V1_NVMCTRL_CTRLA_EEPROM_ERASE_WRITE : Nat := 0x13

def UPDI_V1_NVMCTRL_CTRLA_CHIP_ERASE : Nat := 0x20

def UPDI_V1_NVMCTRL_CTRLA_EEPROM_ERASE : Nat := 0x30

/-- The device descriptor: only the NVM controller base address is used. -/
structure Device where
  nvmctrl_address : Nat
deriving DecidableEq, Repr

/-- The device side of the link: `status i` is the value the i-th status
register read (counted over the whole session) returns. -/
structure Env where
  status : Nat → Nat

/-- One operation on the memory link, as issued by the NVM core.
`readByte` records a status-register read together with the value the
device returned; `writeByte` is a control-register write; `writeData` and
`writeDataWords` are payload writes into target memory; `sleepCommit` is
the fixed post-commit delay of the generation-0 page write. -/
inductive Event where
  | readByte (address : Nat) (value : Nat)
  | writeByte (address : Nat) (value : Nat)
  | writeData (address : Nat) (data : List Nat)
  | writeDataWords (address : Nat) (data : List Nat) (blocksize : Nat)
  | sleepCommit
deriving DecidableEq, Repr

/-- Session state threaded through every operation: number of status reads
performed so far and the trace of link events in issue order. -/
structure St where
  reads : Nat
  events : List Event
deriving DecidableEq, Repr

/-- The Python exception classes raised by `nvm.py`. -/
inductive ExcKind where
  | ioError
  | pymcuprogError
  | exc
  | indexError
deriving DecidableEq, Repr

/-- A raised exception: its class and its message string. -/
structure Err where
  kind : ExcKind
  msg : String
deriving DecidableEq, Repr

/-- The three exit points of `wait_flash_ready`: the WRITE_ERROR branch,
the not-busy branch, and falling out of the deadline loop. -/
inductive WaitResult where
  | ready
  | nvmError
  | timeout
deriving DecidableEq, Repr

/-- `status & (1 << UPDI_NVM_STATUS_WRITE_ERROR)` is nonzero. -/
def statusErr (s : Nat) : Bool :=
  s &&& (1 <<< UPDI_NVM_STATUS_WRITE_ERROR) != 0

/-- `not status & ((1 << EEPROM_BUSY) | (1 << FLASH_BUSY))`. -/
def statusNotBusy (s : Nat) : Bool :=
  s &&& ((1 <<< UPDI_NVM_STATUS_EEPROM_BUSY) ||| (1 <<< UPDI_NVM_STATUS_FLASH_BUSY)) == 0

/-- The polling loop of `wait_flash_ready`, as a pure scan over the status
stream: starting at read index `i` with `fuel` reads left before the
10-second deadline, return how the loop exits and how many reads it
consumed.  Each iteration mirrors the loop body: read a status byte, exit
with `nvmError` if WRITE_ERROR is set, exit with `ready` if neither busy
bit is set, otherwise keep polling. -/
def waitScan (env : Env) : Nat → Nat → WaitResult × Nat
  | 0, _ => (WaitResult.timeout, 0)
  | fuel + 1, i =>
    let s := env.status i % 256
    if statusErr s then (WaitResult.nvmError, 1)
    else if statusNotBusy s then (WaitResult.ready, 1)
    else
      let r := waitScan env fuel (i + 1)
      (r.1, r.2 + 1)

/-- Address of the status register. -/
def statusAddr (dev : Device) : Nat := dev.nvmctrl_address + UPDI_NVMCTRL_STATUS

/-- The link events generated by `n` consecutive status reads starting at
read index `i`. -/
def waitEvents (dev : Device) (env : Env) (i n : Nat) : List Event :=
  (List.range n).map fun k => Event.readByte (statusAddr dev) (env.status (i + k) % 256)

/-- `NvmUpdi.wait_flash_ready`: poll the status register until the deadline
(`fuel` reads) expires; `True` only on the not-busy exit.  Both the
WRITE_ERROR exit and the deadline exit return `False` to the caller (they
differ only in the log message emitted). -/
def wait_flash_ready (dev : Device) (env : Env) (fuel : Nat) (st : St) : Bool × St :=
  let r := waitScan env fuel st.reads
  (r.1 == WaitResult.ready,
   { reads := st.reads + r.2, events := st.events ++ waitEvents dev env st.reads r.2 })

/-- Append one link event to the trace. -/
def emit (e : Event) (st : St) : St :=
  { st with events := st.events ++ [e] }

/-- `NvmUpdi.execute_nvm_command`: write a command code to CTRLA. -/
def execute_nvm_command (dev : Device) (command : Nat) (st : St) : St :=
  emit (Event.writeByte (dev.nvmctrl_address + UPDI_NVMCTRL_CTRLA) command) st

namespace NvmUpdiTinyMega

/-- `NvmUpdiTinyMega.chip_erase` (v0): wait, CHIP_ERASE, wait. -/
def chip_erase (dev : Device) (env : Env) (fuel : Nat) (st : St) : Except Err Bool × St :=
  let w1 := wait_flash_ready dev env fuel st
  if w1.1 = false then
    (Except.error ⟨ExcKind.ioError, "Timeout waiting for flash ready before erase "⟩, w1.2)
  else
    let st1 := execute_nvm_command dev UPDI_V0_NVMCTRL_CTRLA_CHIP_ERASE w1.2
    let w2 := wait_flash_ready dev env fuel st1
    if w2.1 = false then
      (Except.error ⟨ExcKind.ioError, "Timeout waiting for flash ready after erase"⟩, w2.2)
    else
      (Except.ok true, w2.2)

/-- `NvmUpdiTinyMega.erase_flash_page` (v0): wait, dummy write 0xFF to the
page address, ERASE_PAGE, wait. -/
def erase_flash_page (dev : Device) (env : Env) (fuel : Nat) (address : Nat) (st : St) :
    Except Err Unit × St :=
  let w1 := wait_flash_ready dev env fuel st
  if w1.1 = false then
    (Except.error ⟨ExcKind.ioError, "Timeout waiting for flash ready before erase "⟩, w1.2)
  else
    let st1 := emit (Event.writeData address [0xFF]) w1.2
    let st2 := execute_nvm_command dev UPDI_V0_NVMCTRL_CTRLA_ERASE_PAGE st1
    let w2 := wait_flash_ready dev env fuel st2
    if w2.1 = false then
      (Except.error ⟨ExcKind.ioError, "Timeout waiting for flash ready after erase"⟩, w2.2)
    else
      (Except.ok (), w2.2)

/-- `NvmUpdiTinyMega.erase_eeprom` (v0): wait, ERASE_EEPROM, wait. -/
def erase_eeprom (dev : Device) (env : Env) (fuel : Nat) (st : St) : Except Err Unit × St :=
  let w1 := wait_flash_ready dev env fuel st
  if w1.1 = false then
    (Except.error ⟨ExcKind.ioError, "Timeout waiting for flash ready before erase "⟩, w1.2)
  else
    let st1 := execute_nvm_command dev UPDI_V0_NVMCTRL_CTRLA_ERASE_EEPROM w1.2
    let w2 := wait_flash_ready dev env fuel st1
    if w2.1 = false then
      (Except.error ⟨ExcKind.ioError, "Timeout waiting for flash ready after erase"⟩, w2.2)
    else
      (Except.ok (), w2.2)

/-- `NvmUpdiTinyMega.erase_user_row` (v0): wait, one dummy 0xFF write per
location of the row, ERASE_PAGE, wait. -/
def erase_user_row (dev : Device) (env : Env) (fuel : Nat) (address size : Nat) (st : St) :
    Except Err Unit × St :=
  let w1 := wait_flash_ready dev env fuel st
  if w1.1 = false then
    (Except.error ⟨ExcKind.ioError, "Timeout waiting for flash ready before erase "⟩, w1.2)
  else
    let st1 := (List.range size).foldl
      (fun s off => emit (Event.writeData (address + off) [0xFF]) s) w1.2
    let st2 := execute_nvm_command dev UPDI_V0_NVMCTRL_CTRLA_ERASE_PAGE st1
    let w2 := wait_flash_ready dev env fuel st2
    if w2.1 = false then
      (Except.error ⟨ExcKind.ioError, "Timeout waiting for flash ready after erase"⟩, w2.2)
    else
      (Except.ok (), w2.2)

/-- `NvmUpdiTinyMega.write_fuse` (v0): wait, write the address bytes to
ADDRL/ADDRH, write `data[0]` to DATAL, WRITE_FUSE, wait.  The Python
`data[0]` raises `IndexError` on an empty payload, after the ADDRL/ADDRH
writes and before the DATAL write. -/
def write_fuse (dev : Device) (env : Env) (fuel : Nat) (address : Nat) (data : List Nat)
    (st : St) : Except Err Unit × St :=
  let w1 := wait_flash_ready dev env fuel st
  if w1.1 = false then
    (Except.error ⟨ExcKind.pymcuprogError,
      "Timeout waiting for flash ready before page buffer clear "⟩, w1.2)
  else
    let st1 := emit (Event.writeByte (dev.nvmctrl_address + UPDI_NVMCTRL_ADDRL)
      (address &&& 0xFF)) w1.2
    let st2 := emit (Event.writeByte (dev.nvmctrl_address + UPDI_NVMCTRL_ADDRH)
      ((address >>> 8) &&& 0xFF)) st1
    match data with
    | [] => (Except.error ⟨ExcKind.indexError, "list index out of range"⟩, st2)
    | d0 :: _ =>
      let st3 := emit (Event.writeByte (dev.nvmctrl_address + UPDI_NVMCTRL_DATAL)
        (d0 &&& 0xFF)) st2
      let st4 := execute_nvm_command dev UPDI_V0_NVMCTRL_CTRLA_WRITE_FUSE st3
      let w2 := wait_flash_ready dev env fuel st4
      if w2.1 = false then
        (Except.error ⟨ExcKind.pymcuprogError,
          "Timeout waiting for flash ready before page buffer clear "⟩, w2.2)
      else
        (Except.ok (), w2.2)

/-- The fall-through part of `NvmUpdiTinyMega.write_nvm` after the
(possibly skipped) setup block: load the payload into the page buffer
(word- or byte-wise), issue the commit command, sleep 1 ms, and run the
final ready-wait unless `bulkwrite == 1`. -/
def write_nvm_tail (dev : Device) (env : Env) (fuel : Nat) (address : Nat) (data : List Nat)
    (use_word_access : Bool) (nvmcommand : Nat) (blocksize : Nat) (bulkwrite : Nat)
    (st : St) : Except Err Unit × St :=
  let st2 := if use_word_access then emit (Event.writeDataWords address data blocksize) st
             else emit (Event.writeData address data) st
  let st3 := execute_nvm_command dev nvmcommand st2
  let st4 := emit Event.sleepCommit st3
  if bulkwrite != 1 then
    let w3 := wait_flash_ready dev env fuel st4
    if w3.1 = false then
      (Except.error ⟨ExcKind.pymcuprogError,
        "Timeout waiting for flash ready after page write "⟩, w3.2)
    else
      (Except.ok (), w3.2)
  else
    (Except.ok (), st4)

/-- `NvmUpdiTinyMega.write_nvm` (v0), the generic page write.  Setup (wait,
PAGE_BUFFER_CLR, wait) runs when `bulkwrite == 0 or address == 0x8000 or
address == 0x4000 or not use_word_access`; control then falls through to
`write_nvm_tail` (load, commit, conditional final wait). -/
def write_nvm (dev : Device) (env : Env) (fuel : Nat) (address : Nat) (data : List Nat)
    (use_word_access : Bool) (nvmcommand : Nat) (blocksize : Nat) (bulkwrite : Nat)
    (st : St) : Except Err Unit × St :=
  if bulkwrite == 0 || address == 0x8000 || address == 0x4000 || !use_word_access then
    let w1 := wait_flash_ready dev env fuel st
    if w1.1 = false then
      (Except.error ⟨ExcKind.pymcuprogError,
        "Timeout waiting for flash ready before page buffer clear "⟩, w1.2)
    else
      let st1 := execute_nvm_command dev UPDI_V0_NVMCTRL_CTRLA_PAGE_BUFFER_CLR w1.2
      let w2 := wait_flash_ready dev env fuel st1
      if w2.1 = false then
        (Except.error ⟨ExcKind.pymcuprogError,
          "Timeout waiting for flash ready after page buffer clear"⟩, w2.2)
      else
        write_nvm_tail dev env fuel address data use_word_access nvmcommand blocksize
          bulkwrite w2.2
  else
    write_nvm_tail dev env fuel address data use_word_access nvmcommand blocksize
      bulkwrite st

/-- `NvmUpdiTinyMega.write_flash` (v0): generic write with word access and
the default WRITE_PAGE commit command. -/
def write_flash (dev : Device) (env : Env) (fuel : Nat) (address : Nat) (data : List Nat)
    (blocksize bulkwrite : Nat) (st : St) : Except Err Unit × St :=
  write_nvm dev env fuel address data true UPDI_V0_NVMCTRL_CTRLA_WRITE_PAGE blocksize
    bulkwrite st

/-- `NvmUpdiTinyMega.write_eeprom` (v0): generic write with byte access and
the ERASE_WRITE_PAGE commit command (default blocksize 2, bulkwrite 0). -/
def write_eeprom (dev : Device) (env : Env) (fuel : Nat) (address : Nat) (data : List Nat)
    (st : St) : Except Err Unit × St :=
  write_nvm dev env fuel address data false UPDI_V0_NVMCTRL_CTRLA_ERASE_WRITE_PAGE 2 0 st

/-- `NvmUpdiTinyMega.write_user_row` (v0): user row is EEPROM-backed. -/
def write_user_row (dev : Device) (env : Env) (fuel : Nat) (address : Nat) (data : List Nat)
    (st : St) : Except Err Unit × St :=
  write_eeprom dev env fuel address data st

end NvmUpdiTinyMega

namespace NvmUpdiAvrDx

/-- `NvmUpdiAvrDx.chip_erase` (v1): wait, CHIP_ERASE, wait.  Unlike the
other v1 command-latching operations, no NOCMD clear is issued. -/
def chip_erase (dev : Device) (env : Env) (fuel : Nat) (st : St) : Except Err Bool × St :=
  let w1 := wait_flash_ready dev env fuel st
  if w1.1 = false then
    (Except.error ⟨ExcKind.exc, "Timeout waiting for flash ready before erase "⟩, w1.2)
  else
    let st1 := execute_nvm_command dev UPDI_V1_NVMCTRL_CTRLA_CHIP_ERASE w1.2
    let w2 := wait_flash_ready dev env fuel st1
    if w2.1 = false then
      (Except.error ⟨ExcKind.exc, "Timeout waiting for flash ready after erase"⟩, w2.2)
    else
      (Except.ok true, w2.2)

/-- `NvmUpdiAvrDx.erase_flash_page` (v1): wait, FLASH_PAGE_ERASE, dummy
write 0xFF to the page address, wait, NOCMD. -/
def erase_flash_page (dev : Device) (env : Env) (fuel : Nat) (address : Nat) (st : St) :
    Except Err Unit × St :=
  let w1 := wait_flash_ready dev env fuel st
  if w1.1 = false then
    (Except.error ⟨ExcKind.ioError, "Timeout waiting for flash ready before erase "⟩, w1.2)
  else
    let st1 := execute_nvm_command dev UPDI_V1_NVMCTRL_CTRLA_FLASH_PAGE_ERASE w1.2
    let st2 := emit (Event.writeData address [0xFF]) st1
    let w2 := wait_flash_ready dev env fuel st2
    if w2.1 = false then
      (Except.error ⟨ExcKind.ioError, "Timeout waiting for flash ready after erase"⟩, w2.2)
    else
      (Except.ok (), execute_nvm_command dev UPDI_V1_NVMCTRL_CTRLA_NOCMD w2.2)

/-- `NvmUpdiAvrDx.erase_eeprom` (v1): wait, EEPROM_ERASE, wait, NOCMD. -/
def erase_eeprom (dev : Device) (env : Env) (fuel : Nat) (st : St) : Except Err Unit × St :=
  let w1 := wait_flash_ready dev env fuel st
  if w1.1 = false then
    (Except.error ⟨ExcKind.ioError, "Timeout waiting for flash ready before erase "⟩, w1.2)
  else
    let st1 := execute_nvm_command dev UPDI_V1_NVMCTRL_CTRLA_EEPROM_ERASE w1.2
    let w2 := wait_flash_ready dev env fuel st1
    if w2.1 = false then
      (Except.error ⟨ExcKind.ioError, "Timeout waiting for flash ready after erase"⟩, w2.2)
    else
      (Except.ok (), execute_nvm_command dev UPDI_V1_NVMCTRL_CTRLA_NOCMD w2.2)

/-- `NvmUpdiAvrDx.erase_user_row` (v1): `size` is unused; user row is
flash-backed, so this delegates to `erase_flash_page`. -/
def erase_user_row (dev : Device) (env : Env) (fuel : Nat) (address size : Nat) (st : St) :
    Except Err Unit × St :=
  let _dummy := size
  erase_flash_page dev env fuel address st

/-- `NvmUpdiAvrDx.write_eeprom` (v1): wait, EEPROM_ERASE_WRITE, write the
payload to target memory, wait, NOCMD. -/
def write_eeprom (dev : Device) (env : Env) (fuel : Nat) (address : Nat) (data : List Nat)
    (st : St) : Except Err Unit × St :=
  let nvm_command := UPDI_V1_NVMCTRL_CTRLA_EEPROM_ERASE_WRITE
  let w1 := wait_flash_ready dev env fuel st
  if w1.1 = false then
    (Except.error ⟨ExcKind.exc, "Timeout waiting for NVM ready before command write"⟩, w1.2)
  else
    let st1 := execute_nvm_command dev nvm_command w1.2
    let st2 := emit (Event.writeData address data) st1
    let w2 := wait_flash_ready dev env fuel st2
    if w2.1 = false then
      (Except.error ⟨ExcKind.exc, "Timeout waiting for NVM ready after data write"⟩, w2.2)
    else
      (Except.ok (), execute_nvm_command dev UPDI_V1_NVMCTRL_CTRLA_NOCMD w2.2)

/-- `NvmUpdiAvrDx.write_fuse` (v1): fuses are EEPROM-backed. -/
def write_fuse (dev : Device) (env : Env) (fuel : Nat) (address : Nat) (data : List Nat)
    (st : St) : Except Err Unit × St :=
  write_eeprom dev env fuel address data st

/-- The fall-through part of `NvmUpdiAvrDx.write_nvm` after the (possibly
skipped) setup block: write the payload directly to target memory, then run
the final ready-wait and the NOCMD clear unless `bulkwrite == 1`. -/
def write_nvm_tail (dev : Device) (env : Env) (fuel : Nat) (address : Nat) (data : List Nat)
    (use_word_access : Bool) (blocksize : Nat) (bulkwrite : Nat) (st : St) :
    Except Err Unit × St :=
  let st2 := if use_word_access then emit (Event.writeDataWords address data blocksize) st
             else emit (Event.writeData address data) st
  if bulkwrite != 1 then
    let w2 := wait_flash_ready dev env fuel st2
    if w2.1 = false then
      (Except.error ⟨ExcKind.exc, "Timeout waiting for flash ready after data write"⟩, w2.2)
    else
      (Except.ok (), execute_nvm_command dev UPDI_V1_NVMCTRL_CTRLA_NOCMD w2.2)
  else
    (Except.ok (), st2)

/-- `NvmUpdiAvrDx.write_nvm` (v1), the generic direct write.  Setup (wait,
FLASH_WRITE command latch) runs when `bulkwrite == 0 or address ==
0x800000`; control then falls through to `write_nvm_tail` (direct payload
write, conditional final wait and NOCMD clear). -/
def write_nvm (dev : Device) (env : Env) (fuel : Nat) (address : Nat) (data : List Nat)
    (use_word_access : Bool) (blocksize : Nat) (bulkwrite : Nat) (st : St) :
    Except Err Unit × St :=
  let nvm_command := UPDI_V1_NVMCTRL_CTRLA_FLASH_WRITE
  if bulkwrite == 0 || address == 0x800000 then
    let w1 := wait_flash_ready dev env fuel st
    if w1.1 = false then
      (Except.error ⟨ExcKind.exc,
        "Timeout waiting for flash ready before page buffer clear "⟩, w1.2)
    else
      write_nvm_tail dev env fuel address data use_word_access blocksize bulkwrite
        (execute_nvm_command dev nvm_command w1.2)
  else
    write_nvm_tail dev env fuel address data use_word_access blocksize bulkwrite st

/-- `NvmUpdiAvrDx.write_flash` (v1): generic write with word access. -/
def write_flash (dev : Device) (env : Env) (fuel : Nat) (address : Nat) (data : List Nat)
    (blocksize bulkwrite : Nat) (st : St) : Except Err Unit × St :=
  write_nvm dev env fuel address data true blocksize bulkwrite st

/-- `NvmUpdiAvrDx.write_user_row` (v1): generic write with byte access and
default blocksize/bulkwrite. -/
def write_user_row (dev : Device) (env : Env) (fuel : Nat) (address : Nat) (data : List Nat)
    (st : St) : Except Err Unit × St :=
  write_nvm dev env fuel address data false 2 0 st

end NvmUpdiAvrDx

/-- Is a trace event a payload write into target memory? -/
def isDataEvent : Event → Bool
  | Event.writeData _ _ => true
  | Event.writeDataWords _ _ _ => true
  | _ => false

/-- Modelled from the spec: the memory-link contract (§6) — `writeBytes
(addr, bytes)` and `writeWords(addr, bytes, wordSize)` store byte `i` of
the payload at `addr + i` in the byte-addressable target memory space.
`storeBytes mem a ds` performs one such store. -/
def storeBytes : (Nat → Nat) → Nat → List Nat → (Nat → Nat)
  | mem, _, [] => mem
  | mem, a, d :: rest => storeBytes (fun x => if x = a then d % 256 else mem x) (a + 1) rest

/-- Modelled from the spec: effect of one link event on target memory.
Control-register reads and writes address the separate control-register
space (§2) and leave target memory unchanged; payload writes store their
bytes. -/
def applyEvent (mem : Nat → Nat) : Event → (Nat → Nat)
  | Event.writeData a ds => storeBytes mem a ds
  | Event.writeDataWords a ds _ => storeBytes mem a ds
  | _ => mem

/-- Target-memory contents after replaying a trace. -/
def runMem (mem : Nat → Nat) (evs : List Event) : Nat → Nat :=
  evs.foldl applyEvent mem

/-- Modelled from the spec: the bulk-write scenario of §8 — pages 1..N-1
written with bulk-continue (`bulkwrite = 1`), the last page with bulk-final
(`bulkwrite = 2`), aborting on the first failure (generation 0, word
access, WRITE_PAGE commit). -/
def v0_bulkPages (dev : Device) (env : Env) (fuel blocksize : Nat) :
    List (Nat × List Nat) → St → Except Err Unit × St
  | [], st => (Except.ok (), st)
  | [p], st =>
    NvmUpdiTinyMega.write_nvm dev env fuel p.1 p.2 true UPDI_V0_NVMCTRL_CTRLA_WRITE_PAGE
      blocksize 2 st
  | p :: q :: rest, st =>
    let r := NvmUpdiTinyMega.write_nvm dev env fuel p.1 p.2 true
      UPDI_V0_NVMCTRL_CTRLA_WRITE_PAGE blocksize 1 st
    match r.1 with
    | Except.error e => (Except.error e, r.2)
    | Except.ok _ => v0_bulkPages dev env fuel blocksize (q :: rest) r.2

/-- Modelled from the spec: the same pages written as N independent
single-mode operations (`bulkwrite = 0`), aborting on the first failure. -/
def v0_singlePages (dev : Device) (env : Env) (fuel blocksize : Nat) :
    List (Nat × List Nat) → St → Except Err Unit × St
  | [], st => (Except.ok (), st)
  | p :: rest, st =>
    let r := NvmUpdiTinyMega.write_nvm dev env fuel p.1 p.2 true
      UPDI_V0_NVMCTRL_CTRLA_WRITE_PAGE blocksize 0 st
    match r.1 with
    | Except.error e => (Except.error e, r.2)
    | Except.ok _ => v0_singlePages dev env fuel blocksize rest r.2

/-- Modelled from the spec: generation-1 bulk-write scenario of §8. -/
def v1_bulkPages (dev : Device) (env : Env) (fuel blocksize : Nat) :
    List (Nat × List Nat) → St → Except Err Unit × St
  | [], st => (Except.ok (), st)
  | [p], st => NvmUpdiAvrDx.write_nvm dev env fuel p.1 p.2 true blocksize 2 st
  | p :: q :: rest, st =>
    let r := NvmUpdiAvrDx.write_nvm dev env fuel p.1 p.2 true blocksize 1 st
    match r.1 with
    | Except.error e => (Except.error e, r.2)
    | Except.ok _ => v1_bulkPages dev env fuel blocksize (q :: rest) r.2

/-- Modelled from the spec: generation-1 single-mode writes of the same
pages. -/
def v1_singlePages (dev : Device) (env : Env) (fuel blocksize : Nat) :
    List (Nat × List Nat) → St → Except Err Unit × St
  | [], st => (Except.ok (), st)
  | p :: rest, st =>
    let r := NvmUpdiAvrDx.write_nvm dev env fuel p.1 p.2 true blocksize 0 st
    match r.1 with
    | Except.error e => (Except.error e, r.2)
    | Except.ok _ => v1_singlePages dev env fuel blocksize rest r.2

/-- Is a trace event a command write (a write to the CTRLA register)? -/
def isCmdWrite (dev : Device) : Event → Bool
  | Event.writeByte a _ => a == dev.nvmctrl_address + UPDI_NVMCTRL_CTRLA
  | _ => false

/-- Is a trace event a status read that observed a non-busy, non-error
status (a ready-wait observing "ready")? -/
def isReadyRead (dev : Device) : Event → Bool
  | Event.readByte a v => a == statusAddr dev && !statusErr v && statusNotBusy v
  | _ => false

/-- Scan a trace left to right: `seen` records whether a ready observation
has already occurred; the scan fails (returns `false`) on the first command
write not preceded by a ready observation. -/
def cmdsAfterReady (dev : Device) : Bool → List Event → Bool
  | _, [] => true
  | seen, e :: rest =>
    if isCmdWrite dev e && !seen then false
    else cmdsAfterReady dev (seen || isReadyRead dev e) rest

/-- Whether a ready observation occurs in the trace (continuing from a
previous flag). -/
def seenReady (dev : Device) (b : Bool) (evs : List Event) : Bool :=
  evs.foldl (fun acc e => acc || isReadyRead dev e) b

/-- One step of the command-register fold: a CTRLA write replaces the
remembered value, every other event keeps it. -/
def ctrlaStep (dev : Device) (acc : Option Nat) : Event → Option Nat
  | Event.writeByte a v =>
    if a = dev.nvmctrl_address + UPDI_NVMCTRL_CTRLA then some v else acc
  | _ => acc

/-- The value left in the command register by a trace: the last CTRLA
write, if any. -/
def lastCtrlaWrite (dev : Device) (evs : List Event) : Option Nat :=
  evs.foldl (ctrlaStep dev) none

/-- Concrete device descriptor used by witnesses and counterexamples. -/
def dev0 : Device := ⟨0x1000⟩

/-- Fresh session state. -/
def st0 : St := ⟨0, []⟩

/-- A device that always answers "ready" (no busy, no error bits). -/
def envAllReady : Env := ⟨fun _ => 0⟩

/-- A device whose status register always has WRITE_ERROR (bit 2) set. -/
def envErr : Env := ⟨fun _ => 4⟩

/-- A device whose status register always has FLASH_BUSY (bit 0) set. -/
def envBusy : Env := ⟨fun _ => 1⟩

/-- A device that is ready on the first read and busy on all later ones. -/
def envReadyThenBusy : Env := ⟨fun i => if i = 0 then 0 else 1⟩

theorem waitScan_reads_le (env : Env) : ∀ fuel i, (waitScan env fuel i).2 ≤ fuel
  | 0, _ => by simp [waitScan]
  | fuel + 1, i => by
    by_cases h1 : statusErr (env.status i % 256)
    · simp [waitScan, h1]
    · by_cases h2 : statusNotBusy (env.status i % 256)
      · simp [waitScan, h1, h2]
      · simpa [waitScan, h1, h2] using waitScan_reads_le env fuel (i + 1)

theorem waitScan_err_first (env : Env) (fuel i : Nat)
    (h : statusErr (env.status i % 256) = true) :
    waitScan env (fuel + 1) i = (WaitResult.nvmError, 1) := by
  simp [waitScan, h]

theorem waitScan_ready_first (env : Env) (fuel i : Nat)
    (h1 : statusErr (env.status i % 256) = false)
    (h2 : statusNotBusy (env.status i % 256) = true) :
    waitScan env (fuel + 1) i = (WaitResult.ready, 1) := by
  simp [waitScan, h1, h2]

theorem waitScan_timeout_spec (env : Env) : ∀ fuel i,
    (waitScan env fuel i).1 = WaitResult.timeout →
    (waitScan env fuel i).2 = fuel ∧
      ∀ k, k < fuel → statusErr (env.status (i + k) % 256) = false ∧
        statusNotBusy (env.status (i + k) % 256) = false
  | 0, i => by
    intro _
    exact ⟨rfl, fun k hk => absurd hk (Nat.not_lt_zero k)⟩
  | fuel + 1, i => by
    intro h
    by_cases h1 : statusErr (env.status i % 256)
    · simp [waitScan, h1] at h
    · by_cases h2 : statusNotBusy (env.status i % 256)
      · simp [waitScan, h1, h2] at h
      · simp only [waitScan, h1, h2] at h ⊢
        simp at h
        obtain ⟨hn, hall⟩ := waitScan_timeout_spec env fuel (i + 1) h
        refine ⟨by simp [hn], ?_⟩
        intro k hk
        cases k with
        | zero => exact ⟨by simpa using h1, by simpa using h2⟩
        | succ m =>
          have hm : m < fuel := by omega
          have := hall m hm
          have harith : i + 1 + m = i + (m + 1) := by omega
          rw [harith] at this
          exact this

theorem waitScan_ready_spec (env : Env) : ∀ fuel i n,
    waitScan env fuel i = (WaitResult.ready, n) →
    0 < n ∧ statusErr (env.status (i + (n - 1)) % 256) = false ∧
      statusNotBusy (env.status (i + (n - 1)) % 256) = true
  | 0, i, n => by intro h; simp [waitScan] at h
  | fuel + 1, i, n => by
    intro h
    by_cases h1 : statusErr (env.status i % 256)
    · simp [waitScan, h1] at h
    · by_cases h2 : statusNotBusy (env.status i % 256)
      · simp only [waitScan, h1, h2] at h
        simp only [Bool.not_eq_true] at h1
        simp only [h1, h2, Bool.false_eq_true, if_false, if_true, Prod.mk.injEq] at h
        obtain ⟨-, hn⟩ := h
        subst hn
        simpa using ⟨by simpa using h1, h2⟩
      · simp only [waitScan, h1, h2] at h
        simp only [Bool.not_eq_true] at h1 h2
        simp only [h1, h2, Bool.false_eq_true, if_false, Prod.mk.injEq] at h
        obtain ⟨hr, hn⟩ := h
        have hpair : waitScan env fuel (i + 1) = (WaitResult.ready, (waitScan env fuel (i + 1)).2) :=
          Prod.ext hr rfl
        obtain ⟨hpos, ha, hb⟩ := waitScan_ready_spec env fuel (i + 1) _ hpair
        have hn' : n = (waitScan env fuel (i + 1)).2 + 1 := hn.symm
        subst hn'
        have harith : i + 1 + ((waitScan env fuel (i + 1)).2 - 1) =
            i + ((waitScan env fuel (i + 1)).2 + 1 - 1) := by omega
        rw [harith] at ha hb
        exact ⟨Nat.succ_pos _, ha, hb⟩

theorem waitScan_nvmError_spec (env : Env) : ∀ fuel i n,
    waitScan env fuel i = (WaitResult.nvmError, n) →
    0 < n ∧ statusErr (env.status (i + (n - 1)) % 256) = true
  | 0, i, n => by intro h; simp [waitScan] at h
  | fuel + 1, i, n => by
    intro h
    by_cases h1 : statusErr (env.status i % 256)
    · simp only [waitScan, h1, if_true, Prod.mk.injEq] at h
      obtain ⟨-, hn⟩ := h
      subst hn
      simpa using h1
    · by_cases h2 : statusNotBusy (env.status i % 256)
      · simp [waitScan, h1, h2] at h
      · simp only [waitScan, h1, h2] at h
        simp only [Bool.not_eq_true] at h1 h2
        simp only [h1, h2, Bool.false_eq_true, if_false, Prod.mk.injEq] at h
        obtain ⟨hr, hn⟩ := h
        have hpair : waitScan env fuel (i + 1) =
            (WaitResult.nvmError, (waitScan env fuel (i + 1)).2) := Prod.ext hr rfl
        obtain ⟨hpos, ha⟩ := waitScan_nvmError_spec env fuel (i + 1) _ hpair
        have hn' : n = (waitScan env fuel (i + 1)).2 + 1 := hn.symm
        subst hn'
        have harith : i + 1 + ((waitScan env fuel (i + 1)).2 - 1) =
            i + ((waitScan env fuel (i + 1)).2 + 1 - 1) := by omega
        rw [harith] at ha
        exact ⟨Nat.succ_pos _, ha⟩

theorem seenReady_true (dev : Device) : ∀ l : List Event, seenReady dev true l = true
  | [] => rfl
  | e :: rest => by simp [seenReady, List.foldl] at *; exact seenReady_true dev rest

theorem seenReady_append (dev : Device) (b : Bool) (xs ys : List Event) :
    seenReady dev b (xs ++ ys) = seenReady dev (seenReady dev b xs) ys := by
  simp [seenReady, List.foldl_append]

theorem seenReady_of_mem (dev : Device) : ∀ (l : List Event) (b : Bool) (e : Event),
    e ∈ l → isReadyRead dev e = true → seenReady dev b l = true
  | [], _, _, hmem, _ => absurd hmem (List.not_mem_nil _)
  | f :: rest, b, e, hmem, hr => by
    rcases List.mem_cons.mp hmem with heq | hmem'
    · subst heq
      simp [seenReady, List.foldl, hr]
      exact seenReady_true dev rest
    · simp only [seenReady, List.foldl]
      exact seenReady_of_mem dev rest _ e hmem' hr

theorem cmdsAfterReady_true (dev : Device) : ∀ l : List Event, cmdsAfterReady dev true l = true
  | [] => rfl
  | e :: rest => by
    simp [cmdsAfterReady]
    exact cmdsAfterReady_true dev rest

theorem cmdsAfterReady_append (dev : Device) : ∀ (xs ys : List Event) (b : Bool),
    cmdsAfterReady dev b (xs ++ ys) =
      (cmdsAfterReady dev b xs && cmdsAfterReady dev (seenReady dev b xs) ys)
  | [], ys, b => by simp [cmdsAfterReady, seenReady]
  | e :: xs, ys, b => by
    cases h : (isCmdWrite dev e && !b) with
    | true => simp [cmdsAfterReady, h]
    | false =>
      have hseen : seenReady dev b (e :: xs) = seenReady dev (b || isReadyRead dev e) xs := by
        simp [seenReady, List.foldl]
      have hstep : ∀ l, cmdsAfterReady dev b (e :: l) =
          cmdsAfterReady dev (b || isReadyRead dev e) l := by
        intro l
        simp [cmdsAfterReady, h]
      rw [show (e :: xs) ++ ys = e :: (xs ++ ys) from rfl, hstep, hstep,
        cmdsAfterReady_append dev xs ys (b || isReadyRead dev e), hseen]

theorem cmdsAfterReady_noCmds (dev : Device) : ∀ (l : List Event) (b : Bool),
    (∀ e ∈ l, isCmdWrite dev e = false) → cmdsAfterReady dev b l = true
  | [], _, _ => rfl
  | e :: rest, b, h => by
    have he : isCmdWrite dev e = false := h e (List.mem_cons_self e rest)
    simp [cmdsAfterReady, he]
    exact cmdsAfterReady_noCmds dev rest _ fun f hf => h f (List.mem_cons_of_mem e hf)

theorem waitEvents_no_cmd (dev : Device) (env : Env) (i n : Nat) :
    ∀ e ∈ waitEvents dev env i n, isCmdWrite dev e = false := by
  intro e he
  simp only [waitEvents, List.mem_map, List.mem_range] at he
  obtain ⟨k, -, rfl⟩ := he
  rfl

theorem waitEvents_ready_mem (dev : Device) (env : Env) (i n fuel : Nat)
    (h : waitScan env fuel i = (WaitResult.ready, n)) :
    ∃ e ∈ waitEvents dev env i n, isReadyRead dev e = true := by
  obtain ⟨hpos, ha, hb⟩ := waitScan_ready_spec env fuel i n h
  refine ⟨Event.readByte (statusAddr dev) (env.status (i + (n - 1)) % 256), ?_, ?_⟩
  · simp only [waitEvents, List.mem_map, List.mem_range]
    exact ⟨n - 1, by omega, rfl⟩
  · simp [isReadyRead, ha, hb]

/-- After a trace that passes the scan and contains a ready observation,
any continuation keeps the scan passing. -/
theorem cmdsAfterReady_extend (dev : Device) (xs ys : List Event)
    (h1 : cmdsAfterReady dev false xs = true) (h2 : seenReady dev false xs = true) :
    cmdsAfterReady dev false (xs ++ ys) = true := by
  rw [cmdsAfterReady_append, h1, h2, cmdsAfterReady_true]
  rfl

theorem ctrlaStep_skip (dev : Device) : ∀ (l : List Event) (acc : Option Nat),
    (∀ e ∈ l, isCmdWrite dev e = false) → l.foldl (ctrlaStep dev) acc = acc
  | [], _, _ => rfl
  | e :: rest, acc, h => by
    have he : isCmdWrite dev e = false := h e (List.mem_cons_self e rest)
    have hstep : ctrlaStep dev acc e = acc := by
      cases e with
      | writeByte a v =>
        have he' : a ≠ dev.nvmctrl_address + UPDI_NVMCTRL_CTRLA := by
          simpa [isCmdWrite] using he
        simp [ctrlaStep, he']
      | readByte a v => rfl
      | writeData a d => rfl
      | writeDataWords a d bs => rfl
      | sleepCommit => rfl
    simp only [List.foldl, hstep]
    exact ctrlaStep_skip dev rest acc fun f hf => h f (List.mem_cons_of_mem e hf)

theorem lastCtrlaWrite_append (dev : Device) (xs ys : List Event) :
    lastCtrlaWrite dev (xs ++ ys) = ys.foldl (ctrlaStep dev) (lastCtrlaWrite dev xs) := by
  simp [lastCtrlaWrite, List.foldl_append]

/-- Claim C1: the ready-wait polls the status register in a loop bounded by
the 10-second deadline (`fuel` reads).  On each read it exits with the
NVM-error report if WRITE_ERROR is set (no further polling), exits ready if
neither EEPROM_BUSY nor FLASH_BUSY is set, and reports timeout only when
the deadline expires with every read busy and error-free; a first read with
the error bit set terminates the wait after exactly one status read. -/
theorem c1_wait_flash_ready_contract (dev : Device) (env : Env) (fuel i : Nat) :
    (statusErr (env.status i % 256) = true → 0 < fuel →
      waitScan env fuel i = (WaitResult.nvmError, 1) ∧
      wait_flash_ready dev env fuel ⟨i, []⟩ =
        (false, ⟨i + 1, [Event.readByte (statusAddr dev) (env.status i % 256)]⟩)) ∧
    (statusErr (env.status i % 256) = false → statusNotBusy (env.status i % 256) = true →
      0 < fuel →
      waitScan env fuel i = (WaitResult.ready, 1) ∧
      wait_flash_ready dev env fuel ⟨i, []⟩ =
        (true, ⟨i + 1, [Event.readByte (statusAddr dev) (env.status i % 256)]⟩)) ∧
    ((waitScan env fuel i).1 = WaitResult.timeout →
      (waitScan env fuel i).2 = fuel ∧
      ∀ k, k < fuel → statusErr (env.status (i + k) % 256) = false ∧
        statusNotBusy (env.status (i + k) % 256) = false) ∧
    (∀ n, waitScan env fuel i = (WaitResult.nvmError, n) →
      0 < n ∧ statusErr (env.status (i + (n - 1)) % 256) = true) ∧
    (∀ n, waitScan env fuel i = (WaitResult.ready, n) →
      0 < n ∧ statusErr (env.status (i + (n - 1)) % 256) = false ∧
        statusNotBusy (env.status (i + (n - 1)) % 256) = true) := by
  refine ⟨?_, ?_, waitScan_timeout_spec env fuel i,
    fun n h => waitScan_nvmError_spec env fuel i n h,
    fun n h => waitScan_ready_spec env fuel i n h⟩
  · intro herr hf
    obtain ⟨m, rfl⟩ : ∃ m, fuel = m + 1 := ⟨fuel - 1, by omega⟩
    have hs := waitScan_err_first env m i herr
    refine ⟨hs, ?_⟩
    simp [wait_flash_ready, hs, waitEvents]
    rfl
  · intro herr hnb hf
    obtain ⟨m, rfl⟩ : ∃ m, fuel = m + 1 := ⟨fuel - 1, by omega⟩
    have hs := waitScan_ready_first env m i herr hnb
    refine ⟨hs, ?_⟩
    simp [wait_flash_ready, hs, waitEvents]
    rfl

/-- Witness for C1 at a concrete input: a device whose first status read
has the error bit set makes the wait exit after exactly one read. -/
theorem c1_witness :
    waitScan envErr 3 0 = (WaitResult.nvmError, 1) ∧
    wait_flash_ready dev0 envErr 3 ⟨0, []⟩ =
      (false, ⟨0 + 1, [Event.readByte (statusAddr dev0) (envErr.status 0 % 256)]⟩) :=
  (c1_wait_flash_ready_contract dev0 envErr 3 0).1 (by decide) (by decide)

/-- Claim C3 counterexample: a run whose first status read shows
WRITE_ERROR and a run whose ready-wait times out surface the *same* value
to the caller of `chip_erase` — the identical `IOError` with the
timeout-worded message — so the two failures are not distinct at the
caller's interface. -/
theorem c3_error_vs_timeout_cex :
    (waitScan envErr 5 0).1 = WaitResult.nvmError ∧
    (waitScan envBusy 5 0).1 = WaitResult.timeout ∧
    (NvmUpdiTinyMega.chip_erase dev0 envErr 5 st0).1 =
      (NvmUpdiTinyMega.chip_erase dev0 envBusy 5 st0).1 ∧
    (NvmUpdiTinyMega.chip_erase dev0 envErr 5 st0).1 =
      Except.error ⟨ExcKind.ioError, "Timeout waiting for flash ready before erase "⟩ :=
  ⟨rfl, rfl, rfl, rfl⟩

/-- Claim C3 (amended): whenever the opening ready-wait of the
generation-0 chip erase exits via the WRITE_ERROR observation, the caller
receives exactly the same failure as when it exits via deadline expiry —
the `IOError` with the timeout-worded message.  The two causes are told
apart only inside `wait_flash_ready` (its two distinct log messages), not
at the caller's interface. -/
theorem c3_error_and_timeout_same_failure (dev : Device) (env1 env2 : Env)
    (f1 f2 : Nat) (st1 st2 : St)
    (h1 : (waitScan env1 f1 st1.reads).1 = WaitResult.nvmError)
    (h2 : (waitScan env2 f2 st2.reads).1 = WaitResult.timeout) :
    (NvmUpdiTinyMega.chip_erase dev env1 f1 st1).1 =
      (NvmUpdiTinyMega.chip_erase dev env2 f2 st2).1 ∧
    (NvmUpdiTinyMega.chip_erase dev env1 f1 st1).1 =
      Except.error ⟨ExcKind.ioError, "Timeout waiting for flash ready before erase "⟩ := by
  have e1 : ((waitScan env1 f1 st1.reads).1 == WaitResult.ready) = false := by
    rw [h1]
    rfl
  have e2 : ((waitScan env2 f2 st2.reads).1 == WaitResult.ready) = false := by
    rw [h2]
    rfl
  constructor
  · simp [NvmUpdiTinyMega.chip_erase, wait_flash_ready, e1, e2]
  · simp [NvmUpdiTinyMega.chip_erase, wait_flash_ready, e1]

/-- Witness for the amended C3 at concrete inputs. -/
theorem c3_witness :
    (NvmUpdiTinyMega.chip_erase dev0 envErr 5 st0).1 =
      (NvmUpdiTinyMega.chip_erase dev0 envBusy 5 st0).1 ∧
    (NvmUpdiTinyMega.chip_erase dev0 envErr 5 st0).1 =
      Except.error ⟨ExcKind.ioError, "Timeout waiting for flash ready before erase "⟩ :=
  c3_error_and_timeout_same_failure dev0 envErr envBusy 5 5 st0 st0 (by decide) (by decide)

/-- The NOCMD clear event on the CTRLA register. -/
def nocmdEvent (dev : Device) : Event :=
  Event.writeByte (dev.nvmctrl_address + UPDI_NVMCTRL_CTRLA) UPDI_V1_NVMCTRL_CTRLA_NOCMD

theorem v1_erase_flash_page_last (dev : Device) (env : Env) (fuel address : Nat) (st : St)
    (r : Unit) (st' : St)
    (h : NvmUpdiAvrDx.erase_flash_page dev env fuel address st = (Except.ok r, st')) :
    st'.events.getLast? = some (nocmdEvent dev) := by
  simp only [NvmUpdiAvrDx.erase_flash_page] at h
  split at h
  · simp at h
  · split at h
    · simp at h
    · simp only [Prod.mk.injEq] at h
      obtain ⟨-, rfl⟩ := h
      simp [execute_nvm_command, emit, nocmdEvent]

theorem v1_erase_eeprom_last (dev : Device) (env : Env) (fuel : Nat) (st : St)
    (r : Unit) (st' : St)
    (h : NvmUpdiAvrDx.erase_eeprom dev env fuel st = (Except.ok r, st')) :
    st'.events.getLast? = some (nocmdEvent dev) := by
  simp only [NvmUpdiAvrDx.erase_eeprom] at h
  split at h
  · simp at h
  · split at h
    · simp at h
    · simp only [Prod.mk.injEq] at h
      obtain ⟨-, rfl⟩ := h
      simp [execute_nvm_command, emit, nocmdEvent]

theorem v1_write_eeprom_last (dev : Device) (env : Env) (fuel address : Nat)
    (data : List Nat) (st : St) (r : Unit) (st' : St)
    (h : NvmUpdiAvrDx.write_eeprom dev env fuel address data st = (Except.ok r, st')) :
    st'.events.getLast? = some (nocmdEvent dev) := by
  simp only [NvmUpdiAvrDx.write_eeprom] at h
  split at h
  · simp at h
  · split at h
    · simp at h
    · simp only [Prod.mk.injEq] at h
      obtain ⟨-, rfl⟩ := h
      simp [execute_nvm_command, emit, nocmdEvent]

theorem v1_write_nvm_last (dev : Device) (env : Env) (fuel address : Nat) (data : List Nat)
    (use_word_access : Bool) (blocksize bulkwrite : Nat) (st : St) (r : Unit) (st' : St)
    (hbulk : bulkwrite ≠ 1)
    (h : NvmUpdiAvrDx.write_nvm dev env fuel address data use_word_access blocksize bulkwrite
      st = (Except.ok r, st')) :
    st'.events.getLast? = some (nocmdEvent dev) := by
  have hb : (bulkwrite != 1) = true := bne_iff_ne.mpr hbulk
  have htail : ∀ st₀ : St,
      NvmUpdiAvrDx.write_nvm_tail dev env fuel address data use_word_access blocksize
        bulkwrite st₀ = (Except.ok r, st') →
      st'.events.getLast? = some (nocmdEvent dev) := by
    intro st₀ ht
    simp only [NvmUpdiAvrDx.write_nvm_tail, hb, if_true] at ht
    split at ht <;> split at ht <;>
      (simp only [Prod.mk.injEq] at ht
       obtain ⟨hc, rfl⟩ := ht
       first
         | exact Except.noConfusion hc
         | simp [execute_nvm_command, emit, nocmdEvent])
  simp only [NvmUpdiAvrDx.write_nvm] at h
  split at h
  · split at h
    · simp at h
    · exact htail _ h
  · exact htail _ h

/-- Claim C2 counterexample: a successful generation-1 chip erase does
*not* end with a NOCMD write — its last link operation is the final status
read, and no CTRLA write of NOCMD appears at the end of its trace. -/
theorem c2_chip_erase_no_nocmd_cex :
    (NvmUpdiAvrDx.chip_erase dev0 envAllReady 1 st0).1 = Except.ok true ∧
    (NvmUpdiAvrDx.chip_erase dev0 envAllReady 1 st0).2.events.getLast? =
      some (Event.readByte (statusAddr dev0) 0) ∧
    (NvmUpdiAvrDx.chip_erase dev0 envAllReady 1 st0).2.events.getLast? ≠
      some (nocmdEvent dev0) := by
  refine ⟨rfl, rfl, ?_⟩
  decide

/-- Claim C2 (amended): every generation-1 operation that latches a
command *except chip erase* — erase flash page, erase EEPROM, erase user
row, EEPROM/fuse write, and the generic flash/user-row write in single or
bulk-final mode — ends a successful run by writing NOCMD to the command
register, leaving it cleared.  (Chip erase issues no NOCMD clear; see the
counterexample.) -/
theorem c2_v1_nocmd_clear (dev : Device) (env : Env) (fuel : Nat) (st : St) :
    (∀ address r st',
      NvmUpdiAvrDx.erase_flash_page dev env fuel address st = (Except.ok r, st') →
      st'.events.getLast? = some (nocmdEvent dev)) ∧
    (∀ r st', NvmUpdiAvrDx.erase_eeprom dev env fuel st = (Except.ok r, st') →
      st'.events.getLast? = some (nocmdEvent dev)) ∧
    (∀ address size r st',
      NvmUpdiAvrDx.erase_user_row dev env fuel address size st = (Except.ok r, st') →
      st'.events.getLast? = some (nocmdEvent dev)) ∧
    (∀ address data r st',
      NvmUpdiAvrDx.write_eeprom dev env fuel address data st = (Except.ok r, st') →
      st'.events.getLast? = some (nocmdEvent dev)) ∧
    (∀ address data r st',
      NvmUpdiAvrDx.write_fuse dev env fuel address data st = (Except.ok r, st') →
      st'.events.getLast? = some (nocmdEvent dev)) ∧
    (∀ address data use_word_access blocksize bulkwrite r st', bulkwrite ≠ 1 →
      NvmUpdiAvrDx.write_nvm dev env fuel address data use_word_access blocksize bulkwrite
        st = (Except.ok r, st') →
      st'.events.getLast? = some (nocmdEvent dev)) ∧
    (∀ address data blocksize bulkwrite r st', bulkwrite ≠ 1 →
      NvmUpdiAvrDx.write_flash dev env fuel address data blocksize bulkwrite st =
        (Except.ok r, st') →
      st'.events.getLast? = some (nocmdEvent dev)) ∧
    (∀ address data r st',
      NvmUpdiAvrDx.write_user_row dev env fuel address data st = (Except.ok r, st') →
      st'.events.getLast? = some (nocmdEvent dev)) := by
  refine ⟨fun a r st' h => v1_erase_flash_page_last dev env fuel a st r st' h,
    fun r st' h => v1_erase_eeprom_last dev env fuel st r st' h,
    fun a size r st' h => ?_,
    fun a d r st' h => v1_write_eeprom_last dev env fuel a d st r st' h,
    fun a d r st' h => v1_write_eeprom_last dev env fuel a d st r st' h,
    fun a d w bs bw r st' hb h => v1_write_nvm_last dev env fuel a d w bs bw st r st' hb h,
    fun a d bs bw r st' hb h => v1_write_nvm_last dev env fuel a d true bs bw st r st' hb h,
    fun a d r st' h => v1_write_nvm_last dev env fuel a d false 2 0 st r st' (by decide) h⟩
  exact v1_erase_flash_page_last dev env fuel a st r st' h

/-- Witness for the amended C2: a concrete successful generation-1 EEPROM
erase ends with the NOCMD clear. -/
theorem c2_witness :
    (NvmUpdiAvrDx.erase_eeprom dev0 envAllReady 1 st0).2.events.getLast? =
      some (nocmdEvent dev0) :=
  (c2_v1_nocmd_clear dev0 envAllReady 1 st0).2.1 ()
    (NvmUpdiAvrDx.erase_eeprom dev0 envAllReady 1 st0).2 rfl

theorem nocmd_not_mem_waitEvents (dev : Device) (env : Env) (i n : Nat) :
    nocmdEvent dev ∉ waitEvents dev env i n := by
  intro hmem
  simp only [waitEvents, List.mem_map, List.mem_range] at hmem
  obtain ⟨k, -, hk⟩ := hmem
  simp [nocmdEvent] at hk

/-- Claim C9: if the ready-wait after the data write of the generation-1
EEPROM write fails (error or deadline), the operation raises the
"after data write" exception without ever issuing the NOCMD clear: the
last value written to the command register over the whole run is the
latched EEPROM_ERASE_WRITE command, no NOCMD write appears anywhere in the
trace, and the generation-1 fuse write is literally the same operation. -/
theorem c9_v1_write_eeprom_error_keeps_cmd (dev : Device) (env : Env)
    (fuel address r0 : Nat) (data : List Nat)
    (h1 : (waitScan env fuel r0).1 = WaitResult.ready)
    (h2 : (waitScan env fuel (r0 + (waitScan env fuel r0).2)).1 ≠ WaitResult.ready) :
    (NvmUpdiAvrDx.write_eeprom dev env fuel address data ⟨r0, []⟩).1 =
      Except.error ⟨ExcKind.exc, "Timeout waiting for NVM ready after data write"⟩ ∧
    lastCtrlaWrite dev (NvmUpdiAvrDx.write_eeprom dev env fuel address data ⟨r0, []⟩).2.events =
      some UPDI_V1_NVMCTRL_CTRLA_EEPROM_ERASE_WRITE ∧
    nocmdEvent dev ∉ (NvmUpdiAvrDx.write_eeprom dev env fuel address data ⟨r0, []⟩).2.events ∧
    (∀ st, NvmUpdiAvrDx.write_fuse dev env fuel address data st =
      NvmUpdiAvrDx.write_eeprom dev env fuel address data st) := by
  rcases hw1 : waitScan env fuel r0 with ⟨r1, n1⟩
  rw [hw1] at h1 h2
  simp only at h1
  subst h1
  simp only at h2
  rcases hw2 : waitScan env fuel (r0 + n1) with ⟨r2, n2⟩
  rw [hw2] at h2
  simp only at h2
  have hr2 : (r2 == WaitResult.ready) = false := by
    cases r2 <;> simp_all
  have hrun : NvmUpdiAvrDx.write_eeprom dev env fuel address data ⟨r0, []⟩ =
      (Except.error ⟨ExcKind.exc, "Timeout waiting for NVM ready after data write"⟩,
       ⟨r0 + n1 + n2,
        waitEvents dev env r0 n1 ++
          [Event.writeByte (dev.nvmctrl_address + UPDI_NVMCTRL_CTRLA)
            UPDI_V1_NVMCTRL_CTRLA_EEPROM_ERASE_WRITE,
           Event.writeData address data] ++
          waitEvents dev env (r0 + n1) n2⟩) := by
    simp [NvmUpdiAvrDx.write_eeprom, wait_flash_ready, hw1, hw2, hr2,
      execute_nvm_command, emit]
  refine ⟨by rw [hrun], ?_, ?_, fun st => rfl⟩
  · rw [hrun]
    simp only [lastCtrlaWrite, List.foldl_append]
    rw [ctrlaStep_skip dev _ none (waitEvents_no_cmd dev env r0 n1)]
    rw [ctrlaStep_skip dev _ _ (waitEvents_no_cmd dev env (r0 + n1) n2)]
    simp [ctrlaStep]
  · rw [hrun]
    simp only [List.mem_append, not_or]
    refine ⟨⟨nocmd_not_mem_waitEvents dev env r0 n1, ?_⟩,
      nocmd_not_mem_waitEvents dev env (r0 + n1) n2⟩
    simp [nocmdEvent, UPDI_V1_NVMCTRL_CTRLA_NOCMD, UPDI_V1_NVMCTRL_CTRLA_EEPROM_ERASE_WRITE]

/-- Witness for C9 at a concrete input: device ready on the first read,
busy forever after. -/
theorem c9_witness :
    (NvmUpdiAvrDx.write_eeprom dev0 envReadyThenBusy 2 0x1400 [0xAA] ⟨0, []⟩).1 =
      Except.error ⟨ExcKind.exc, "Timeout waiting for NVM ready after data write"⟩ ∧
    lastCtrlaWrite dev0
        (NvmUpdiAvrDx.write_eeprom dev0 envReadyThenBusy 2 0x1400 [0xAA] ⟨0, []⟩).2.events =
      some UPDI_V1_NVMCTRL_CTRLA_EEPROM_ERASE_WRITE ∧
    nocmdEvent dev0 ∉
      (NvmUpdiAvrDx.write_eeprom dev0 envReadyThenBusy 2 0x1400 [0xAA] ⟨0, []⟩).2.events ∧
    (∀ st, NvmUpdiAvrDx.write_fuse dev0 envReadyThenBusy 2 0x1400 [0xAA] st =
      NvmUpdiAvrDx.write_eeprom dev0 envReadyThenBusy 2 0x1400 [0xAA] st) :=
  c9_v1_write_eeprom_error_keeps_cmd dev0 envReadyThenBusy 2 0x1400 0 [0xAA]
    (by decide) (by decide)

theorem v0_write_fuse_run (dev : Device) (env : Env) (fuel address d : Nat)
    (rest : List Nat) (st : St) (n1 : Nat) (r2 : WaitResult) (n2 : Nat)
    (hw1 : waitScan env fuel st.reads = (WaitResult.ready, n1))
    (hw2 : waitScan env fuel (st.reads + n1) = (r2, n2)) :
    NvmUpdiTinyMega.write_fuse dev env fuel address (d :: rest) st =
      ((if r2 = WaitResult.ready then Except.ok () else
        Except.error ⟨ExcKind.pymcuprogError,
          "Timeout waiting for flash ready before page buffer clear "⟩),
       ⟨st.reads + n1 + n2,
        st.events ++ waitEvents dev env st.reads n1 ++
          [Event.writeByte (dev.nvmctrl_address + UPDI_NVMCTRL_ADDRL) (address &&& 0xFF),
           Event.writeByte (dev.nvmctrl_address + UPDI_NVMCTRL_ADDRH) ((address >>> 8) &&& 0xFF),
           Event.writeByte (dev.nvmctrl_address + UPDI_NVMCTRL_DATAL) (d &&& 0xFF),
           Event.writeByte (dev.nvmctrl_address + UPDI_NVMCTRL_CTRLA)
             UPDI_V0_NVMCTRL_CTRLA_WRITE_FUSE] ++
          waitEvents dev env (st.reads + n1) n2⟩) := by
  cases r2 <;>
    simp [NvmUpdiTinyMega.write_fuse, wait_flash_ready, hw1, hw2, execute_nvm_command,
      emit, List.append_assoc]

/-- Claim C8: the generation-0 fuse write performs, in order, a
ready-wait, the low address byte to ADDRL, the high address byte to ADDRH,
the payload byte to DATAL, the WRITE_FUSE command, and a final ready-wait;
it succeeds exactly when both ready-waits succeed. -/
theorem c8_v0_write_fuse_contract (dev : Device) (env : Env) (fuel address d : Nat)
    (rest : List Nat) (st : St) :
    ((NvmUpdiTinyMega.write_fuse dev env fuel address (d :: rest) st).1 = Except.ok () ↔
      (waitScan env fuel st.reads).1 = WaitResult.ready ∧
      (waitScan env fuel (st.reads + (waitScan env fuel st.reads).2)).1 =
        WaitResult.ready) ∧
    ((waitScan env fuel st.reads).1 = WaitResult.ready →
      (NvmUpdiTinyMega.write_fuse dev env fuel address (d :: rest) st).2.events =
        st.events ++ waitEvents dev env st.reads (waitScan env fuel st.reads).2 ++
          [Event.writeByte (dev.nvmctrl_address + UPDI_NVMCTRL_ADDRL) (address &&& 0xFF),
           Event.writeByte (dev.nvmctrl_address + UPDI_NVMCTRL_ADDRH) ((address >>> 8) &&& 0xFF),
           Event.writeByte (dev.nvmctrl_address + UPDI_NVMCTRL_DATAL) (d &&& 0xFF),
           Event.writeByte (dev.nvmctrl_address + UPDI_NVMCTRL_CTRLA)
             UPDI_V0_NVMCTRL_CTRLA_WRITE_FUSE] ++
          waitEvents dev env (st.reads + (waitScan env fuel st.reads).2)
            (waitScan env fuel (st.reads + (waitScan env fuel st.reads).2)).2) := by
  rcases hw1 : waitScan env fuel st.reads with ⟨r1, n1⟩
  cases r1 with
  | ready =>
    rcases hw2 : waitScan env fuel (st.reads + n1) with ⟨r2, n2⟩
    rw [v0_write_fuse_run dev env fuel address d rest st n1 r2 n2 hw1 hw2]
    constructor
    · cases r2 <;> simp
    · intro _
      simp
  | nvmError =>
    have hfail : ((waitScan env fuel st.reads).1 == WaitResult.ready) = false := by
      rw [hw1]
      rfl
    constructor
    · simp only [NvmUpdiTinyMega.write_fuse, wait_flash_ready, hfail]
      simp [hw1]
    · intro hready
      simp at hready
  | timeout =>
    have hfail : ((waitScan env fuel st.reads).1 == WaitResult.ready) = false := by
      rw [hw1]
      rfl
    constructor
    · simp only [NvmUpdiTinyMega.write_fuse, wait_flash_ready, hfail]
      simp [hw1]
    · intro hready
      simp at hready

/-- Witness for C8: `writeFuse(0x1280, [0x00])` against an always-ready
device writes 0x80 to ADDRL, 0x12 to ADDRH and 0x00 to DATAL, then issues
WRITE_FUSE, with one status read on each side. -/
theorem c8_witness :
    (NvmUpdiTinyMega.write_fuse dev0 envAllReady 1 0x1280 [0x00] st0).2.events =
      ([] : List Event) ++ waitEvents dev0 envAllReady 0 1 ++
        [Event.writeByte (dev0.nvmctrl_address + UPDI_NVMCTRL_ADDRL) 0x80,
         Event.writeByte (dev0.nvmctrl_address + UPDI_NVMCTRL_ADDRH) 0x12,
         Event.writeByte (dev0.nvmctrl_address + UPDI_NVMCTRL_DATAL) 0x00,
         Event.writeByte (dev0.nvmctrl_address + UPDI_NVMCTRL_CTRLA)
           UPDI_V0_NVMCTRL_CTRLA_WRITE_FUSE] ++
        waitEvents dev0 envAllReady 1 1 :=
  (c8_v0_write_fuse_contract dev0 envAllReady 1 0x1280 0x00 [] st0).2 (by decide)

/-- Claim C10: the generation-0 fuse write needs a non-empty payload.  For
every non-empty payload the `data[0]` access is in bounds and the
operation proceeds to the DATAL write (and never fails with an
out-of-bounds error); for the empty payload it fails with the
out-of-bounds `IndexError` immediately after the ADDRL/ADDRH register
writes — the trace ends at the ADDRH write, before any data write or
WRITE_FUSE command. -/
theorem c10_v0_write_fuse_payload (dev : Device) (env : Env) (fuel address : Nat) (st : St) :
    (∀ d rest, (waitScan env fuel st.reads).1 = WaitResult.ready →
      Event.writeByte (dev.nvmctrl_address + UPDI_NVMCTRL_DATAL) (d &&& 0xFF) ∈
        (NvmUpdiTinyMega.write_fuse dev env fuel address (d :: rest) st).2.events) ∧
    (∀ d rest e,
      (NvmUpdiTinyMega.write_fuse dev env fuel address (d :: rest) st).1 = Except.error e →
      e.kind ≠ ExcKind.indexError) ∧
    ((waitScan env fuel st.reads).1 = WaitResult.ready →
      NvmUpdiTinyMega.write_fuse dev env fuel address [] st =
        (Except.error ⟨ExcKind.indexError, "list index out of range"⟩,
         ⟨st.reads + (waitScan env fuel st.reads).2,
          st.events ++ waitEvents dev env st.reads (waitScan env fuel st.reads).2 ++
            [Event.writeByte (dev.nvmctrl_address + UPDI_NVMCTRL_ADDRL) (address &&& 0xFF),
             Event.writeByte (dev.nvmctrl_address + UPDI_NVMCTRL_ADDRH)
               ((address >>> 8) &&& 0xFF)]⟩)) := by
  rcases hw1 : waitScan env fuel st.reads with ⟨r1, n1⟩
  cases r1 with
  | ready =>
    rcases hw2 : waitScan env fuel (st.reads + n1) with ⟨r2, n2⟩
    refine ⟨?_, ?_, ?_⟩
    · intro d rest _
      rw [v0_write_fuse_run dev env fuel address d rest st n1 r2 n2 hw1 hw2]
      simp
    · intro d rest e herr
      rw [v0_write_fuse_run dev env fuel address d rest st n1 r2 n2 hw1 hw2] at herr
      cases r2 <;> simp at herr <;> simp [← herr]
    · intro _
      simp [NvmUpdiTinyMega.write_fuse, wait_flash_ready, hw1, emit, List.append_assoc]
  | nvmError =>
    have hfail : ((waitScan env fuel st.reads).1 == WaitResult.ready) = false := by
      rw [hw1]
      rfl
    refine ⟨fun d rest h => by simp at h, ?_, fun h => by simp at h⟩
    intro d rest e herr
    simp only [NvmUpdiTinyMega.write_fuse, wait_flash_ready, hfail] at herr
    simp at herr
    simp [← herr]
  | timeout =>
    have hfail : ((waitScan env fuel st.reads).1 == WaitResult.ready) = false := by
      rw [hw1]
      rfl
    refine ⟨fun d rest h => by simp at h, ?_, fun h => by simp at h⟩
    intro d rest e herr
    simp only [NvmUpdiTinyMega.write_fuse, wait_flash_ready, hfail] at herr
    simp at herr
    simp [← herr]

/-- Witness for C10: the empty-payload fuse write against an always-ready
device stops with the IndexError right after the two address-register
writes. -/
theorem c10_witness :
    NvmUpdiTinyMega.write_fuse dev0 envAllReady 1 0x1280 [] st0 =
      (Except.error ⟨ExcKind.indexError, "list index out of range"⟩,
       ⟨1, waitEvents dev0 envAllReady 0 1 ++
         [Event.writeByte (dev0.nvmctrl_address + UPDI_NVMCTRL_ADDRL) 0x80,
          Event.writeByte (dev0.nvmctrl_address + UPDI_NVMCTRL_ADDRH) 0x12]⟩) :=
  (c10_v0_write_fuse_payload dev0 envAllReady 1 0x1280 st0).2.2 (by decide)

theorem mem_waitEvents_ex (dev : Device) (env : Env) (i n : Nat) (e : Event)
    (h : e ∈ waitEvents dev env i n) :
    ∃ k, k < n ∧ e = Event.readByte (statusAddr dev) (env.status (i + k) % 256) := by
  simp only [waitEvents, List.mem_map, List.mem_range] at h
  obtain ⟨k, hk, rfl⟩ := h
  exact ⟨k, hk, rfl⟩

theorem writeByte_not_mem_waitEvents (dev : Device) (env : Env) (i n a v : Nat) :
    Event.writeByte a v ∉ waitEvents dev env i n := by
  intro hmem
  obtain ⟨k, -, hk⟩ := mem_waitEvents_ex dev env i n _ hmem
  simp at hk

theorem waitEvents_succ (dev : Device) (env : Env) (i n : Nat) :
    waitEvents dev env i (n + 1) =
      waitEvents dev env i n ++ [Event.readByte (statusAddr dev) (env.status (i + n) % 256)] := by
  simp [waitEvents, List.range_succ]

theorem waitEvents_getLast (dev : Device) (env : Env) (i n : Nat) (hn : 0 < n) :
    (waitEvents dev env i n).getLast? =
      some (Event.readByte (statusAddr dev) (env.status (i + (n - 1)) % 256)) := by
  obtain ⟨m, rfl⟩ : ∃ m, n = m + 1 := ⟨n - 1, by omega⟩
  rw [waitEvents_succ]
  simp

/-- The PAGE_BUFFER_CLR command event of the generation-0 setup phase. -/
def clrEvent (dev : Device) : Event :=
  Event.writeByte (dev.nvmctrl_address + UPDI_NVMCTRL_CTRLA) UPDI_V0_NVMCTRL_CTRLA_PAGE_BUFFER_CLR

theorem v0_tail_bulk1 (dev : Device) (env : Env) (fuel address : Nat) (data : List Nat)
    (use_word_access : Bool) (nvmcommand blocksize : Nat) (st : St) :
    NvmUpdiTinyMega.write_nvm_tail dev env fuel address data use_word_access nvmcommand
        blocksize 1 st =
      (Except.ok (), ⟨st.reads,
        st.events ++
          [(if use_word_access then Event.writeDataWords address data blocksize
            else Event.writeData address data),
           Event.writeByte (dev.nvmctrl_address + UPDI_NVMCTRL_CTRLA) nvmcommand,
           Event.sleepCommit]⟩) := by
  cases use_word_access <;>
    simp [NvmUpdiTinyMega.write_nvm_tail, emit, execute_nvm_command]

theorem v0_tail_final (dev : Device) (env : Env) (fuel address : Nat) (data : List Nat)
    (use_word_access : Bool) (nvmcommand blocksize bulkwrite : Nat) (st : St)
    (r3 : WaitResult) (n3 : Nat) (hb : bulkwrite ≠ 1)
    (hw3 : waitScan env fuel st.reads = (r3, n3)) :
    NvmUpdiTinyMega.write_nvm_tail dev env fuel address data use_word_access nvmcommand
        blocksize bulkwrite st =
      ((if r3 = WaitResult.ready then Except.ok () else
        Except.error ⟨ExcKind.pymcuprogError,
          "Timeout waiting for flash ready after page write "⟩),
       ⟨st.reads + n3,
        st.events ++
          [(if use_word_access then Event.writeDataWords address data blocksize
            else Event.writeData address data),
           Event.writeByte (dev.nvmctrl_address + UPDI_NVMCTRL_CTRLA) nvmcommand,
           Event.sleepCommit] ++
          waitEvents dev env st.reads n3⟩) := by
  have hb' : (bulkwrite != 1) = true := bne_iff_ne.mpr hb
  cases r3 <;> cases use_word_access <;>
    simp [NvmUpdiTinyMega.write_nvm_tail, hb', wait_flash_ready, hw3, emit,
      execute_nvm_command, List.append_assoc]

theorem v0_tail_clr_mem (dev : Device) (env : Env) (fuel address : Nat) (data : List Nat)
    (use_word_access : Bool) (nvmcommand blocksize bulkwrite : Nat) (st : St)
    (r : Except Err Unit) (st' : St)
    (hcmd : nvmcommand ≠ UPDI_V0_NVMCTRL_CTRLA_PAGE_BUFFER_CLR)
    (h : NvmUpdiTinyMega.write_nvm_tail dev env fuel address data use_word_access nvmcommand
      blocksize bulkwrite st = (r, st')) :
    (clrEvent dev ∈ st'.events ↔ clrEvent dev ∈ st.events) := by
  have hcmd' : UPDI_V0_NVMCTRL_CTRLA_PAGE_BUFFER_CLR ≠ nvmcommand := Ne.symm hcmd
  cases use_word_access <;> simp only [NvmUpdiTinyMega.write_nvm_tail] at h <;>
    split at h <;>
      (try split at h) <;>
        (try split at h) <;>
          (simp only [Prod.mk.injEq] at h
           obtain ⟨-, rfl⟩ := h
           simp [clrEvent, emit, execute_nvm_command, wait_flash_ready, List.mem_append,
             writeByte_not_mem_waitEvents, hcmd'])

/-- Claim C6 counterexample: a generation-0 generic write in *bulk-final*
mode (`bulkwrite = 2`, word access, non-boundary address) also skips the
setup phase — no PAGE_BUFFER_CLR appears in its trace — even though its
bulk mode is not bulk-continue, refuting "skipped exactly when bulk mode is
bulk-continue". -/
theorem c6_bulk_final_skips_setup_cex :
    (2 : Nat) ≠ 1 ∧
    (NvmUpdiTinyMega.write_nvm dev0 envAllReady 1 0x1000 [1, 2] true
        UPDI_V0_NVMCTRL_CTRLA_WRITE_PAGE 2 2 st0).1 = Except.ok () ∧
    clrEvent dev0 ∉
      (NvmUpdiTinyMega.write_nvm dev0 envAllReady 1 0x1000 [1, 2] true
        UPDI_V0_NVMCTRL_CTRLA_WRITE_PAGE 2 2 st0).2.events := by
  refine ⟨by decide, rfl, by decide⟩

/-- Claim C6 (amended): in the generation-0 generic page write, the setup
phase (ready-wait, PAGE_BUFFER_CLR, ready-wait) is performed exactly when
the bulk mode is single-operation (`bulkwrite = 0`), the target address is
one of the hard-coded page boundaries 0x8000/0x4000, or access is
byte-wide; equivalently, it is skipped exactly when the bulk mode is *not*
single-operation (bulk-continue or bulk-final alike) and the address is
not a boundary and access is word-wide.  Byte-wide (EEPROM) access always
performs setup. -/
theorem c6_v0_setup_condition (dev : Device) (env : Env)
    (fuel address r0 : Nat) (data : List Nat) (use_word_access : Bool)
    (nvmcommand blocksize bulkwrite : Nat) (r : Unit) (st' : St)
    (hcmd : nvmcommand ≠ UPDI_V0_NVMCTRL_CTRLA_PAGE_BUFFER_CLR)
    (h : NvmUpdiTinyMega.write_nvm dev env fuel address data use_word_access nvmcommand
      blocksize bulkwrite ⟨r0, []⟩ = (Except.ok r, st')) :
    (clrEvent dev ∈ st'.events ↔
      (bulkwrite = 0 ∨ address = 0x8000 ∨ address = 0x4000 ∨ use_word_access = false)) := by
  simp only [NvmUpdiTinyMega.write_nvm] at h
  split at h
  case isTrue hc =>
    have hrhs : bulkwrite = 0 ∨ address = 0x8000 ∨ address = 0x4000 ∨
        use_word_access = false := by
      simp at hc
      tauto
    split at h
    · simp at h
    · split at h
      · simp at h
      · rw [v0_tail_clr_mem dev env fuel address data use_word_access nvmcommand blocksize
          bulkwrite _ _ _ hcmd h]
        refine iff_of_true ?_ hrhs
        simp [clrEvent, wait_flash_ready, execute_nvm_command, emit, List.mem_append]
  case isFalse hc =>
    have hrhs : ¬(bulkwrite = 0 ∨ address = 0x8000 ∨ address = 0x4000 ∨
        use_word_access = false) := by
      simp at hc
      simp [hc]
    rw [v0_tail_clr_mem dev env fuel address data use_word_access nvmcommand blocksize
      bulkwrite _ _ _ hcmd h]
    exact iff_of_false (by simp) hrhs

/-- Witness for the amended C6: the concrete bulk-final run skips setup,
matching the amended condition. -/
theorem c6_witness :
    (clrEvent dev0 ∈
        (NvmUpdiTinyMega.write_nvm dev0 envAllReady 1 0x1000 [1, 2] true
          UPDI_V0_NVMCTRL_CTRLA_WRITE_PAGE 2 2 ⟨0, []⟩).2.events ↔
      ((2 : Nat) = 0 ∨ (0x1000 : Nat) = 0x8000 ∨ (0x1000 : Nat) = 0x4000 ∨ true = false)) :=
  c6_v0_setup_condition dev0 envAllReady 1 0x1000 0 [1, 2] true
    UPDI_V0_NVMCTRL_CTRLA_WRITE_PAGE 2 2 () _ (by decide) rfl

theorem v1_tail_bulk1 (dev : Device) (env : Env) (fuel address : Nat) (data : List Nat)
    (use_word_access : Bool) (blocksize : Nat) (st : St) :
    NvmUpdiAvrDx.write_nvm_tail dev env fuel address data use_word_access blocksize 1 st =
      (Except.ok (), ⟨st.reads,
        st.events ++
          [(if use_word_access then Event.writeDataWords address data blocksize
            else Event.writeData address data)]⟩) := by
  cases use_word_access <;> simp [NvmUpdiAvrDx.write_nvm_tail, emit]

theorem v1_tail_final (dev : Device) (env : Env) (fuel address : Nat) (data : List Nat)
    (use_word_access : Bool) (blocksize bulkwrite : Nat) (st : St)
    (r2 : WaitResult) (n2 : Nat) (hb : bulkwrite ≠ 1)
    (hw2 : waitScan env fuel st.reads = (r2, n2)) :
    NvmUpdiAvrDx.write_nvm_tail dev env fuel address data use_word_access blocksize
        bulkwrite st =
      (if r2 = WaitResult.ready then
        (Except.ok (), ⟨st.reads + n2,
          st.events ++
            [(if use_word_access then Event.writeDataWords address data blocksize
              else Event.writeData address data)] ++
            waitEvents dev env st.reads n2 ++ [nocmdEvent dev]⟩)
      else
        (Except.error ⟨ExcKind.exc, "Timeout waiting for flash ready after data write"⟩,
         ⟨st.reads + n2,
          st.events ++
            [(if use_word_access then Event.writeDataWords address data blocksize
              else Event.writeData address data)] ++
            waitEvents dev env st.reads n2⟩)) := by
  have hb' : (bulkwrite != 1) = true := bne_iff_ne.mpr hb
  cases r2 <;> cases use_word_access <;>
    simp [NvmUpdiAvrDx.write_nvm_tail, hb', wait_flash_ready, hw2, emit,
      execute_nvm_command, nocmdEvent, List.append_assoc]

/-- Claim C7: in the generic write path of both generations, the final
ready-wait (and, on generation 1, the subsequent NOCMD clear) is skipped
exactly when the bulk mode is bulk-continue (`bulkwrite = 1`), and is
executed for every other mode, in particular single-operation (0) and
bulk-final (2).  In bulk-continue the successful generation-0 trace ends at
the post-commit sleep and the generation-1 trace at the data write; in any
other mode the generation-0 trace ends with the final wait's ready status
read, and the generation-1 trace ends with a ready status read followed by
the NOCMD clear. -/
theorem c7_final_wait_condition (dev : Device) (env : Env) (fuel address r0 : Nat)
    (data : List Nat) (use_word_access : Bool) (nvmcommand blocksize : Nat) :
    (∀ bulkwrite (r : Unit) st', bulkwrite = 1 →
      NvmUpdiTinyMega.write_nvm dev env fuel address data use_word_access nvmcommand
        blocksize bulkwrite ⟨r0, []⟩ = (Except.ok r, st') →
      st'.events.getLast? = some Event.sleepCommit) ∧
    (∀ bulkwrite (r : Unit) st', bulkwrite ≠ 1 →
      NvmUpdiTinyMega.write_nvm dev env fuel address data use_word_access nvmcommand
        blocksize bulkwrite ⟨r0, []⟩ = (Except.ok r, st') →
      ∃ s, st'.events.getLast? = some (Event.readByte (statusAddr dev) s) ∧
        statusErr s = false ∧ statusNotBusy s = true) ∧
    (∀ bulkwrite (r : Unit) st', bulkwrite = 1 →
      NvmUpdiAvrDx.write_nvm dev env fuel address data use_word_access blocksize
        bulkwrite ⟨r0, []⟩ = (Except.ok r, st') →
      st'.events.getLast? =
        some (if use_word_access then Event.writeDataWords address data blocksize
          else Event.writeData address data)) ∧
    (∀ bulkwrite (r : Unit) st', bulkwrite ≠ 1 →
      NvmUpdiAvrDx.write_nvm dev env fuel address data use_word_access blocksize
        bulkwrite ⟨r0, []⟩ = (Except.ok r, st') →
      ∃ pre s, st'.events = pre ++ [Event.readByte (statusAddr dev) s, nocmdEvent dev] ∧
        statusErr s = false ∧ statusNotBusy s = true) := by
  refine ⟨?_, ?_, ?_, ?_⟩
  · intro bulkwrite r st' hb h
    subst hb
    have htail : ∀ st₀ : St,
        NvmUpdiTinyMega.write_nvm_tail dev env fuel address data use_word_access nvmcommand
          blocksize 1 st₀ = (Except.ok r, st') →
        st'.events.getLast? = some Event.sleepCommit := by
      intro st₀ ht
      rw [v0_tail_bulk1] at ht
      simp only [Prod.mk.injEq] at ht
      obtain ⟨-, rfl⟩ := ht
      have : ∀ xs : List Event, (xs ++
          [(if use_word_access then Event.writeDataWords address data blocksize
            else Event.writeData address data),
           Event.writeByte (dev.nvmctrl_address + UPDI_NVMCTRL_CTRLA) nvmcommand,
           Event.sleepCommit]).getLast? = some Event.sleepCommit := by
        intro xs
        simp
      exact this st₀.events
    simp only [NvmUpdiTinyMega.write_nvm] at h
    split at h
    · split at h
      · simp at h
      · split at h
        · simp at h
        · exact htail _ h
    · exact htail _ h
  · intro bulkwrite r st' hb h
    have htail : ∀ st₀ : St,
        NvmUpdiTinyMega.write_nvm_tail dev env fuel address data use_word_access nvmcommand
          blocksize bulkwrite st₀ = (Except.ok r, st') →
        ∃ s, st'.events.getLast? = some (Event.readByte (statusAddr dev) s) ∧
          statusErr s = false ∧ statusNotBusy s = true := by
      intro st₀ ht
      rcases hw3 : waitScan env fuel st₀.reads with ⟨r3, n3⟩
      rw [v0_tail_final dev env fuel address data use_word_access nvmcommand blocksize
        bulkwrite st₀ r3 n3 hb hw3] at ht
      cases r3 with
      | ready =>
        simp only [if_pos, Prod.mk.injEq] at ht
        obtain ⟨-, rfl⟩ := ht
        obtain ⟨hpos, herr, hnb⟩ := waitScan_ready_spec env fuel st₀.reads n3 hw3
        refine ⟨env.status (st₀.reads + (n3 - 1)) % 256, ?_, herr, hnb⟩
        rw [List.getLast?_append, waitEvents_getLast dev env st₀.reads n3 hpos]
        rfl
      | nvmError => simp at ht
      | timeout => simp at ht
    simp only [NvmUpdiTinyMega.write_nvm] at h
    split at h
    · split at h
      · simp at h
      · split at h
        · simp at h
        · exact htail _ h
    · exact htail _ h
  · intro bulkwrite r st' hb h
    subst hb
    have htail : ∀ st₀ : St,
        NvmUpdiAvrDx.write_nvm_tail dev env fuel address data use_word_access blocksize
          1 st₀ = (Except.ok r, st') →
        st'.events.getLast? =
          some (if use_word_access then Event.writeDataWords address data blocksize
            else Event.writeData address data) := by
      intro st₀ ht
      rw [v1_tail_bulk1] at ht
      simp only [Prod.mk.injEq] at ht
      obtain ⟨-, rfl⟩ := ht
      simp
    simp only [NvmUpdiAvrDx.write_nvm] at h
    split at h
    · split at h
      · simp at h
      · exact htail _ h
    · exact htail _ h
  · intro bulkwrite r st' hb h
    have htail : ∀ st₀ : St,
        NvmUpdiAvrDx.write_nvm_tail dev env fuel address data use_word_access blocksize
          bulkwrite st₀ = (Except.ok r, st') →
        ∃ pre s, st'.events = pre ++ [Event.readByte (statusAddr dev) s, nocmdEvent dev] ∧
          statusErr s = false ∧ statusNotBusy s = true := by
      intro st₀ ht
      rcases hw2 : waitScan env fuel st₀.reads with ⟨r2, n2⟩
      rw [v1_tail_final dev env fuel address data use_word_access blocksize bulkwrite st₀
        r2 n2 hb hw2] at ht
      cases r2 with
      | ready =>
        simp only [if_pos, Prod.mk.injEq] at ht
        obtain ⟨-, rfl⟩ := ht
        obtain ⟨hpos, herr, hnb⟩ := waitScan_ready_spec env fuel st₀.reads n2 hw2
        obtain ⟨m, rfl⟩ : ∃ m, n2 = m + 1 := ⟨n2 - 1, by omega⟩
        refine ⟨st₀.events ++
          [(if use_word_access then Event.writeDataWords address data blocksize
            else Event.writeData address data)] ++ waitEvents dev env st₀.reads m,
          env.status (st₀.reads + m) % 256, ?_, ?_, ?_⟩
        · rw [waitEvents_succ]
          simp [List.append_assoc]
        · simpa using herr
        · simpa using hnb
      | nvmError => simp at ht
      | timeout => simp at ht
    simp only [NvmUpdiAvrDx.write_nvm] at h
    split at h
    · split at h
      · simp at h
      · exact htail _ h
    · exact htail _ h

/-- Witness for C7 at concrete runs: bulk-continue ends at the sleep (v0)
or the data write (v1); single mode (v0) ends with a ready read; bulk-final
(v1) ends with a ready read followed by NOCMD. -/
theorem c7_witness :
    (NvmUpdiTinyMega.write_nvm dev0 envAllReady 1 0x1000 [1, 2] true
        UPDI_V0_NVMCTRL_CTRLA_WRITE_PAGE 2 1 ⟨0, []⟩).2.events.getLast? =
      some Event.sleepCommit ∧
    (∃ s, (NvmUpdiTinyMega.write_nvm dev0 envAllReady 1 0x1000 [1, 2] true
        UPDI_V0_NVMCTRL_CTRLA_WRITE_PAGE 2 0 ⟨0, []⟩).2.events.getLast? =
      some (Event.readByte (statusAddr dev0) s) ∧
      statusErr s = false ∧ statusNotBusy s = true) ∧
    (NvmUpdiAvrDx.write_nvm dev0 envAllReady 1 0x1000 [1, 2] true 2 1
        ⟨0, []⟩).2.events.getLast? =
      some (if true then Event.writeDataWords 0x1000 [1, 2] 2
        else Event.writeData 0x1000 [1, 2]) ∧
    (∃ pre s, (NvmUpdiAvrDx.write_nvm dev0 envAllReady 1 0x1000 [1, 2] true 2 2
        ⟨0, []⟩).2.events = pre ++ [Event.readByte (statusAddr dev0) s, nocmdEvent dev0] ∧
      statusErr s = false ∧ statusNotBusy s = true) := by
  obtain ⟨p1, p2, p3, p4⟩ := c7_final_wait_condition dev0 envAllReady 1 0x1000 0 [1, 2]
    true UPDI_V0_NVMCTRL_CTRLA_WRITE_PAGE 2
  exact ⟨p1 1 () _ rfl rfl, p2 0 () _ (by decide) rfl, p3 1 () _ rfl rfl,
    p4 2 () _ (by decide) rfl⟩

theorem cmds_we (dev : Device) (env : Env) (i n : Nat) :
    cmdsAfterReady dev false (waitEvents dev env i n) = true :=
  cmdsAfterReady_noCmds dev _ _ (waitEvents_no_cmd dev env i n)

theorem cmds_we_T (dev : Device) (env : Env) (fuel i n : Nat) (T : List Event)
    (hw : waitScan env fuel i = (WaitResult.ready, n)) :
    cmdsAfterReady dev false (waitEvents dev env i n ++ T) = true := by
  apply cmdsAfterReady_extend
  · exact cmds_we dev env i n
  · obtain ⟨e, hmem, hready⟩ := waitEvents_ready_mem dev env i n fuel hw
    exact seenReady_of_mem dev _ false e hmem hready

theorem cmds_ok_v0_chip_erase (dev : Device) (env : Env) (fuel r0 : Nat) :
    cmdsAfterReady dev false
      (NvmUpdiTinyMega.chip_erase dev env fuel ⟨r0, []⟩).2.events = true := by
  rcases hw1 : waitScan env fuel r0 with ⟨r1, n1⟩
  cases r1 with
  | ready =>
    simp only [NvmUpdiTinyMega.chip_erase, wait_flash_ready, hw1, execute_nvm_command, emit,
      beq_self_eq_true, Bool.true_eq_false, if_false, List.nil_append, List.append_assoc]
    split <;> exact cmds_we_T dev env fuel r0 n1 _ hw1
  | nvmError =>
    simp only [NvmUpdiTinyMega.chip_erase, wait_flash_ready, hw1]
    simpa using cmds_we dev env r0 n1
  | timeout =>
    simp only [NvmUpdiTinyMega.chip_erase, wait_flash_ready, hw1]
    simpa using cmds_we dev env r0 n1

theorem foldl_emit (f : Nat → Event) : ∀ (l : List Nat) (st : St),
    l.foldl (fun s off => emit (f off) s) st = ⟨st.reads, st.events ++ l.map f⟩
  | [], st => by cases st <;> simp
  | a :: l, st => by
    simp only [List.foldl_cons, List.map_cons]
    rw [foldl_emit f l]
    simp [emit, List.append_assoc]

theorem cmds_ok_v0_erase_flash_page (dev : Device) (env : Env) (fuel r0 address : Nat) :
    cmdsAfterReady dev false
      (NvmUpdiTinyMega.erase_flash_page dev env fuel address ⟨r0, []⟩).2.events = true := by
  rcases hw1 : waitScan env fuel r0 with ⟨r1, n1⟩
  cases r1 with
  | ready =>
    simp only [NvmUpdiTinyMega.erase_flash_page, wait_flash_ready, hw1, execute_nvm_command,
      emit, beq_self_eq_true, Bool.true_eq_false, if_false, List.nil_append,
      List.append_assoc]
    split <;> exact cmds_we_T dev env fuel r0 n1 _ hw1
  | nvmError =>
    simp only [NvmUpdiTinyMega.erase_flash_page, wait_flash_ready, hw1]
    simpa using cmds_we dev env r0 n1
  | timeout =>
    simp only [NvmUpdiTinyMega.erase_flash_page, wait_flash_ready, hw1]
    simpa using cmds_we dev env r0 n1

theorem cmds_ok_v0_erase_eeprom (dev : Device) (env : Env) (fuel r0 : Nat) :
    cmdsAfterReady dev false
      (NvmUpdiTinyMega.erase_eeprom dev env fuel ⟨r0, []⟩).2.events = true := by
  rcases hw1 : waitScan env fuel r0 with ⟨r1, n1⟩
  cases r1 with
  | ready =>
    simp only [NvmUpdiTinyMega.erase_eeprom, wait_flash_ready, hw1, execute_nvm_command,
      emit, beq_self_eq_true, Bool.true_eq_false, if_false, List.nil_append,
      List.append_assoc]
    split <;> exact cmds_we_T dev env fuel r0 n1 _ hw1
  | nvmError =>
    simp only [NvmUpdiTinyMega.erase_eeprom, wait_flash_ready, hw1]
    simpa using cmds_we dev env r0 n1
  | timeout =>
    simp only [NvmUpdiTinyMega.erase_eeprom, wait_flash_ready, hw1]
    simpa using cmds_we dev env r0 n1

theorem cmds_ok_v0_erase_user_row (dev : Device) (env : Env) (fuel r0 address size : Nat) :
    cmdsAfterReady dev false
      (NvmUpdiTinyMega.erase_user_row dev env fuel address size ⟨r0, []⟩).2.events = true := by
  rcases hw1 : waitScan env fuel r0 with ⟨r1, n1⟩
  cases r1 with
  | ready =>
    simp only [NvmUpdiTinyMega.erase_user_row, wait_flash_ready, hw1, beq_self_eq_true,
      Bool.true_eq_false, if_false, foldl_emit]
    simp only [execute_nvm_command, emit, List.nil_append, List.append_assoc]
    split <;> exact cmds_we_T dev env fuel r0 n1 _ hw1
  | nvmError =>
    simp only [NvmUpdiTinyMega.erase_user_row, wait_flash_ready, hw1]
    simpa using cmds_we dev env r0 n1
  | timeout =>
    simp only [NvmUpdiTinyMega.erase_user_row, wait_flash_ready, hw1]
    simpa using cmds_we dev env r0 n1

theorem cmds_ok_v0_write_fuse (dev : Device) (env : Env) (fuel r0 address : Nat)
    (data : List Nat) :
    cmdsAfterReady dev false
      (NvmUpdiTinyMega.write_fuse dev env fuel address data ⟨r0, []⟩).2.events = true := by
  rcases hw1 : waitScan env fuel r0 with ⟨r1, n1⟩
  cases r1 with
  | ready =>
    cases data <;>
      (simp only [NvmUpdiTinyMega.write_fuse, wait_flash_ready, hw1, execute_nvm_command,
        emit, beq_self_eq_true, Bool.true_eq_false, if_false, List.nil_append,
        List.append_assoc]
       try split) <;> exact cmds_we_T dev env fuel r0 n1 _ hw1
  | nvmError =>
    cases data <;>
      simp only [NvmUpdiTinyMega.write_fuse, wait_flash_ready, hw1] <;>
        simpa using cmds_we dev env r0 n1
  | timeout =>
    cases data <;>
      simp only [NvmUpdiTinyMega.write_fuse, wait_flash_ready, hw1] <;>
        simpa using cmds_we dev env r0 n1

theorem cmds_ok_v0_write_nvm0 (dev : Device) (env : Env) (fuel r0 address : Nat)
    (data : List Nat) (use_word_access : Bool) (nvmcommand blocksize : Nat) :
    cmdsAfterReady dev false
      (NvmUpdiTinyMega.write_nvm dev env fuel address data use_word_access nvmcommand
        blocksize 0 ⟨r0, []⟩).2.events = true := by
  rcases hw1 : waitScan env fuel r0 with ⟨r1, n1⟩
  cases r1 with
  | ready =>
    simp only [NvmUpdiTinyMega.write_nvm, NvmUpdiTinyMega.write_nvm_tail, wait_flash_ready,
      hw1, execute_nvm_command, emit, beq_self_eq_true, Bool.true_or, eq_self_iff_true,
      if_true, Bool.true_eq_false, if_false, List.nil_append, List.append_assoc]
    split <;> (try split) <;> (try split) <;> (try split) <;>
      first
        | exact cmds_we_T dev env fuel r0 n1 _ hw1
        | (simp [List.append_assoc]
           exact cmds_we_T dev env fuel r0 n1 _ hw1)
  | nvmError =>
    simp only [NvmUpdiTinyMega.write_nvm, wait_flash_ready, hw1, beq_self_eq_true,
      Bool.true_or, eq_self_iff_true, if_true]
    simpa using cmds_we dev env r0 n1
  | timeout =>
    simp only [NvmUpdiTinyMega.write_nvm, wait_flash_ready, hw1, beq_self_eq_true,
      Bool.true_or, eq_self_iff_true, if_true]
    simpa using cmds_we dev env r0 n1

theorem cmds_ok_v1_chip_erase (dev : Device) (env : Env) (fuel r0 : Nat) :
    cmdsAfterReady dev false
      (NvmUpdiAvrDx.chip_erase dev env fuel ⟨r0, []⟩).2.events = true := by
  rcases hw1 : waitScan env fuel r0 with ⟨r1, n1⟩
  cases r1 with
  | ready =>
    simp only [NvmUpdiAvrDx.chip_erase, wait_flash_ready, hw1, execute_nvm_command, emit,
      beq_self_eq_true, Bool.true_eq_false, if_false, List.nil_append, List.append_assoc]
    split <;> exact cmds_we_T dev env fuel r0 n1 _ hw1
  | nvmError =>
    simp only [NvmUpdiAvrDx.chip_erase, wait_flash_ready, hw1]
    simpa using cmds_we dev env r0 n1
  | timeout =>
    simp only [NvmUpdiAvrDx.chip_erase, wait_flash_ready, hw1]
    simpa using cmds_we dev env r0 n1

theorem cmds_ok_v1_erase_flash_page (dev : Device) (env : Env) (fuel r0 address : Nat) :
    cmdsAfterReady dev false
      (NvmUpdiAvrDx.erase_flash_page dev env fuel address ⟨r0, []⟩).2.events = true := by
  rcases hw1 : waitScan env fuel r0 with ⟨r1, n1⟩
  cases r1 with
  | ready =>
    simp only [NvmUpdiAvrDx.erase_flash_page, wait_flash_ready, hw1, execute_nvm_command,
      emit, beq_self_eq_true, Bool.true_eq_false, if_false, List.nil_append,
      List.append_assoc]
    split <;> exact cmds_we_T dev env fuel r0 n1 _ hw1
  | nvmError =>
    simp only [NvmUpdiAvrDx.erase_flash_page, wait_flash_ready, hw1]
    simpa using cmds_we dev env r0 n1
  | timeout =>
    simp only [NvmUpdiAvrDx.erase_flash_page, wait_flash_ready, hw1]
    simpa using cmds_we dev env r0 n1

theorem cmds_ok_v1_erase_eeprom (dev : Device) (env : Env) (fuel r0 : Nat) :
    cmdsAfterReady dev false
      (NvmUpdiAvrDx.erase_eeprom dev env fuel ⟨r0, []⟩).2.events = true := by
  rcases hw1 : waitScan env fuel r0 with ⟨r1, n1⟩
  cases r1 with
  | ready =>
    simp only [NvmUpdiAvrDx.erase_eeprom, wait_flash_ready, hw1, execute_nvm_command,
      emit, beq_self_eq_true, Bool.true_eq_false, if_false, List.nil_append,
      List.append_assoc]
    split <;> exact cmds_we_T dev env fuel r0 n1 _ hw1
  | nvmError =>
    simp only [NvmUpdiAvrDx.erase_eeprom, wait_flash_ready, hw1]
    simpa using cmds_we dev env r0 n1
  | timeout =>
    simp only [NvmUpdiAvrDx.erase_eeprom, wait_flash_ready, hw1]
    simpa using cmds_we dev env r0 n1

theorem cmds_ok_v1_write_eeprom (dev : Device) (env : Env) (fuel r0 address : Nat)
    (data : List Nat) :
    cmdsAfterReady dev false
      (NvmUpdiAvrDx.write_eeprom dev env fuel address data ⟨r0, []⟩).2.events = true := by
  rcases hw1 : waitScan env fuel r0 with ⟨r1, n1⟩
  cases r1 with
  | ready =>
    simp only [NvmUpdiAvrDx.write_eeprom, wait_flash_ready, hw1, execute_nvm_command,
      emit, beq_self_eq_true, Bool.true_eq_false, if_false, List.nil_append,
      List.append_assoc]
    split <;> exact cmds_we_T dev env fuel r0 n1 _ hw1
  | nvmError =>
    simp only [NvmUpdiAvrDx.write_eeprom, wait_flash_ready, hw1]
    simpa using cmds_we dev env r0 n1
  | timeout =>
    simp only [NvmUpdiAvrDx.write_eeprom, wait_flash_ready, hw1]
    simpa using cmds_we dev env r0 n1

theorem cmds_ok_v1_write_nvm0 (dev : Device) (env : Env) (fuel r0 address : Nat)
    (data : List Nat) (use_word_access : Bool) (blocksize : Nat) :
    cmdsAfterReady dev false
      (NvmUpdiAvrDx.write_nvm dev env fuel address data use_word_access blocksize 0
        ⟨r0, []⟩).2.events = true := by
  rcases hw1 : waitScan env fuel r0 with ⟨r1, n1⟩
  cases r1 with
  | ready =>
    simp only [NvmUpdiAvrDx.write_nvm, NvmUpdiAvrDx.write_nvm_tail, wait_flash_ready,
      hw1, execute_nvm_command, emit, beq_self_eq_true, Bool.true_or, eq_self_iff_true,
      if_true, Bool.true_eq_false, if_false, List.nil_append, List.append_assoc]
    split <;> (try split) <;> (try split) <;> (try split) <;>
      first
        | exact cmds_we_T dev env fuel r0 n1 _ hw1
        | (simp [List.append_assoc]
           exact cmds_we_T dev env fuel r0 n1 _ hw1)
  | nvmError =>
    simp only [NvmUpdiAvrDx.write_nvm, wait_flash_ready, hw1, beq_self_eq_true,
      Bool.true_or, eq_self_iff_true, if_true]
    simpa using cmds_we dev env r0 n1
  | timeout =>
    simp only [NvmUpdiAvrDx.write_nvm, wait_flash_ready, hw1, beq_self_eq_true,
      Bool.true_or, eq_self_iff_true, if_true]
    simpa using cmds_we dev env r0 n1

/-- Claim C4 counterexample: a generation-0 generic write in bulk-continue
mode issues its commit command with *no* ready-wait (indeed no status read
at all) in the same call — the trace fails the commands-after-ready scan —
refuting "every command issuance is preceded by a ready-wait within the
same operation call". -/
theorem c4_bulk_cmd_without_wait_cex :
    (NvmUpdiTinyMega.write_nvm dev0 envAllReady 1 0x1000 [1, 2] true
        UPDI_V0_NVMCTRL_CTRLA_WRITE_PAGE 2 1 st0).1 = Except.ok () ∧
    cmdsAfterReady dev0 false
      (NvmUpdiTinyMega.write_nvm dev0 envAllReady 1 0x1000 [1, 2] true
        UPDI_V0_NVMCTRL_CTRLA_WRITE_PAGE 2 1 st0).2.events = false := by
  refine ⟨rfl, ?_⟩
  decide

/-- Claim C4 (amended): in single-operation mode (`bulkwrite = 0` for the
generic writes), every public operation of both generations produces a
trace in which each command write to the CTRLA control register is
preceded by an earlier status read that observed a non-busy, non-error
status — the commands-after-ready scan passes on the whole call trace,
whether the operation succeeds or aborts.  In bulk-continue and bulk-final
generic writes, the commit command may be issued with no ready-wait in the
same call (the wait belongs to an earlier call of the bulk sequence); see
the counterexample. -/
theorem c4_single_mode_cmds_after_ready (dev : Device) (env : Env)
    (fuel r0 address size blocksize : Nat) (data : List Nat) (use_word_access : Bool)
    (nvmcommand : Nat) :
    cmdsAfterReady dev false
      (NvmUpdiTinyMega.chip_erase dev env fuel ⟨r0, []⟩).2.events = true ∧
    cmdsAfterReady dev false
      (NvmUpdiTinyMega.erase_flash_page dev env fuel address ⟨r0, []⟩).2.events = true ∧
    cmdsAfterReady dev false
      (NvmUpdiTinyMega.erase_eeprom dev env fuel ⟨r0, []⟩).2.events = true ∧
    cmdsAfterReady dev false
      (NvmUpdiTinyMega.erase_user_row dev env fuel address size ⟨r0, []⟩).2.events = true ∧
    cmdsAfterReady dev false
      (NvmUpdiTinyMega.write_flash dev env fuel address data blocksize 0
        ⟨r0, []⟩).2.events = true ∧
    cmdsAfterReady dev false
      (NvmUpdiTinyMega.write_user_row dev env fuel address data ⟨r0, []⟩).2.events = true ∧
    cmdsAfterReady dev false
      (NvmUpdiTinyMega.write_eeprom dev env fuel address data ⟨r0, []⟩).2.events = true ∧
    cmdsAfterReady dev false
      (NvmUpdiTinyMega.write_fuse dev env fuel address data ⟨r0, []⟩).2.events = true ∧
    cmdsAfterReady dev false
      (NvmUpdiTinyMega.write_nvm dev env fuel address data use_word_access nvmcommand
        blocksize 0 ⟨r0, []⟩).2.events = true ∧
    cmdsAfterReady dev false
      (NvmUpdiAvrDx.chip_erase dev env fuel ⟨r0, []⟩).2.events = true ∧
    cmdsAfterReady dev false
      (NvmUpdiAvrDx.erase_flash_page dev env fuel address ⟨r0, []⟩).2.events = true ∧
    cmdsAfterReady dev false
      (NvmUpdiAvrDx.erase_eeprom dev env fuel ⟨r0, []⟩).2.events = true ∧
    cmdsAfterReady dev false
      (NvmUpdiAvrDx.erase_user_row dev env fuel address size ⟨r0, []⟩).2.events = true ∧
    cmdsAfterReady dev false
      (NvmUpdiAvrDx.write_flash dev env fuel address data blocksize 0
        ⟨r0, []⟩).2.events = true ∧
    cmdsAfterReady dev false
      (NvmUpdiAvrDx.write_user_row dev env fuel address data ⟨r0, []⟩).2.events = true ∧
    cmdsAfterReady dev false
      (NvmUpdiAvrDx.write_eeprom dev env fuel address data ⟨r0, []⟩).2.events = true ∧
    cmdsAfterReady dev false
      (NvmUpdiAvrDx.write_fuse dev env fuel address data ⟨r0, []⟩).2.events = true ∧
    cmdsAfterReady dev false
      (NvmUpdiAvrDx.write_nvm dev env fuel address data use_word_access blocksize 0
        ⟨r0, []⟩).2.events = true :=
  ⟨cmds_ok_v0_chip_erase dev env fuel r0,
   cmds_ok_v0_erase_flash_page dev env fuel r0 address,
   cmds_ok_v0_erase_eeprom dev env fuel r0,
   cmds_ok_v0_erase_user_row dev env fuel r0 address size,
   cmds_ok_v0_write_nvm0 dev env fuel r0 address data true
     UPDI_V0_NVMCTRL_CTRLA_WRITE_PAGE blocksize,
   cmds_ok_v0_write_nvm0 dev env fuel r0 address data false
     UPDI_V0_NVMCTRL_CTRLA_ERASE_WRITE_PAGE 2,
   cmds_ok_v0_write_nvm0 dev env fuel r0 address data false
     UPDI_V0_NVMCTRL_CTRLA_ERASE_WRITE_PAGE 2,
   cmds_ok_v0_write_fuse dev env fuel r0 address data,
   cmds_ok_v0_write_nvm0 dev env fuel r0 address data use_word_access nvmcommand blocksize,
   cmds_ok_v1_chip_erase dev env fuel r0,
   cmds_ok_v1_erase_flash_page dev env fuel r0 address,
   cmds_ok_v1_erase_eeprom dev env fuel r0,
   cmds_ok_v1_erase_flash_page dev env fuel r0 address,
   cmds_ok_v1_write_nvm0 dev env fuel r0 address data true blocksize,
   cmds_ok_v1_write_nvm0 dev env fuel r0 address data false 2,
   cmds_ok_v1_write_eeprom dev env fuel r0 address data,
   cmds_ok_v1_write_eeprom dev env fuel r0 address data,
   cmds_ok_v1_write_nvm0 dev env fuel r0 address data use_word_access blocksize⟩

theorem waitEvents_filter_data (dev : Device) (env : Env) (i n : Nat) :
    (waitEvents dev env i n).filter isDataEvent = [] := by
  rw [List.filter_eq_nil]
  intro e he
  obtain ⟨k, -, rfl⟩ := mem_waitEvents_ex dev env i n e he
  simp [isDataEvent]

theorem runMem_filter : ∀ (evs : List Event) (mem : Nat → Nat),
    runMem mem evs = runMem mem (evs.filter isDataEvent)
  | [], _ => rfl
  | e :: evs, mem => by
    by_cases he : isDataEvent e
    · simp only [runMem, List.foldl_cons, List.filter_cons, he, if_true]
      exact runMem_filter evs (applyEvent mem e)
    · have happ : applyEvent mem e = mem := by
        cases e <;> simp_all [applyEvent, isDataEvent]
      simp only [runMem, List.foldl_cons, List.filter_cons, he, if_false, happ,
        Bool.false_eq_true]
      exact runMem_filter evs mem

theorem waitScan_ready_env (env : Env) (fuel : Nat) (hfuel : 0 < fuel)
    (hready : ∀ i, statusErr (env.status i % 256) = false ∧
      statusNotBusy (env.status i % 256) = true) :
    ∀ i, waitScan env fuel i = (WaitResult.ready, 1) := by
  intro i
  obtain ⟨m, rfl⟩ : ∃ m, fuel = m + 1 := ⟨fuel - 1, by omega⟩
  exact waitScan_ready_first env m i (hready i).1 (hready i).2

theorem v0_wn_ready (dev : Device) (env : Env) (fuel a : Nat) (d : List Nat)
    (cmd bs b : Nat) (st : St) (hfuel : 0 < fuel)
    (hready : ∀ i, statusErr (env.status i % 256) = false ∧
      statusNotBusy (env.status i % 256) = true) :
    (NvmUpdiTinyMega.write_nvm dev env fuel a d true cmd bs b st).1 = Except.ok () ∧
    (NvmUpdiTinyMega.write_nvm dev env fuel a d true cmd bs b st).2.events.filter
        isDataEvent =
      st.events.filter isDataEvent ++ [Event.writeDataWords a d bs] := by
  have hw := waitScan_ready_env env fuel hfuel hready
  simp only [NvmUpdiTinyMega.write_nvm, NvmUpdiTinyMega.write_nvm_tail, wait_flash_ready,
    hw, beq_self_eq_true, Bool.true_eq_false, if_false, execute_nvm_command, emit]
  split <;> (try split) <;>
    constructor <;>
      simp [List.filter_append, waitEvents_filter_data, isDataEvent]

theorem v1_wn_ready (dev : Device) (env : Env) (fuel a : Nat) (d : List Nat)
    (bs b : Nat) (st : St) (hfuel : 0 < fuel)
    (hready : ∀ i, statusErr (env.status i % 256) = false ∧
      statusNotBusy (env.status i % 256) = true) :
    (NvmUpdiAvrDx.write_nvm dev env fuel a d true bs b st).1 = Except.ok () ∧
    (NvmUpdiAvrDx.write_nvm dev env fuel a d true bs b st).2.events.filter isDataEvent =
      st.events.filter isDataEvent ++ [Event.writeDataWords a d bs] := by
  have hw := waitScan_ready_env env fuel hfuel hready
  simp only [NvmUpdiAvrDx.write_nvm, NvmUpdiAvrDx.write_nvm_tail, wait_flash_ready,
    hw, beq_self_eq_true, Bool.true_eq_false, if_false, execute_nvm_command, emit]
  split <;> (try split) <;>
    constructor <;>
      simp [List.filter_append, waitEvents_filter_data, isDataEvent]

theorem v0_single_ready (dev : Device) (env : Env) (fuel bs : Nat) (hfuel : 0 < fuel)
    (hready : ∀ i, statusErr (env.status i % 256) = false ∧
      statusNotBusy (env.status i % 256) = true) :
    ∀ (pages : List (Nat × List Nat)) (st : St),
    (v0_singlePages dev env fuel bs pages st).1 = Except.ok () ∧
    (v0_singlePages dev env fuel bs pages st).2.events.filter isDataEvent =
      st.events.filter isDataEvent ++
        pages.map fun p => Event.writeDataWords p.1 p.2 bs
  | [], st => ⟨rfl, by simp [v0_singlePages]⟩
  | p :: rest, st => by
    rcases hx : NvmUpdiTinyMega.write_nvm dev env fuel p.1 p.2 true
      UPDI_V0_NVMCTRL_CTRLA_WRITE_PAGE bs 0 st with ⟨res, st2⟩
    obtain ⟨hok, hfil⟩ := v0_wn_ready dev env fuel p.1 p.2
      UPDI_V0_NVMCTRL_CTRLA_WRITE_PAGE bs 0 st hfuel hready
    rw [hx] at hok hfil
    simp only at hok hfil
    subst hok
    obtain ⟨ih1, ih2⟩ := v0_single_ready dev env fuel bs hfuel hready rest st2
    refine ⟨?_, ?_⟩
    · simp only [v0_singlePages, hx]
      exact ih1
    · simp only [v0_singlePages, hx]
      rw [ih2, hfil]
      simp [List.append_assoc]

theorem v0_bulk_ready (dev : Device) (env : Env) (fuel bs : Nat) (hfuel : 0 < fuel)
    (hready : ∀ i, statusErr (env.status i % 256) = false ∧
      statusNotBusy (env.status i % 256) = true) :
    ∀ (pages : List (Nat × List Nat)) (st : St),
    (v0_bulkPages dev env fuel bs pages st).1 = Except.ok () ∧
    (v0_bulkPages dev env fuel bs pages st).2.events.filter isDataEvent =
      st.events.filter isDataEvent ++
        pages.map fun p => Event.writeDataWords p.1 p.2 bs
  | [], st => ⟨rfl, by simp [v0_bulkPages]⟩
  | [p], st => by
    obtain ⟨hok, hfil⟩ := v0_wn_ready dev env fuel p.1 p.2
      UPDI_V0_NVMCTRL_CTRLA_WRITE_PAGE bs 2 st hfuel hready
    exact ⟨hok, by simpa using hfil⟩
  | p :: q :: rest, st => by
    rcases hx : NvmUpdiTinyMega.write_nvm dev env fuel p.1 p.2 true
      UPDI_V0_NVMCTRL_CTRLA_WRITE_PAGE bs 1 st with ⟨res, st2⟩
    obtain ⟨hok, hfil⟩ := v0_wn_ready dev env fuel p.1 p.2
      UPDI_V0_NVMCTRL_CTRLA_WRITE_PAGE bs 1 st hfuel hready
    rw [hx] at hok hfil
    simp only at hok hfil
    subst hok
    obtain ⟨ih1, ih2⟩ := v0_bulk_ready dev env fuel bs hfuel hready (q :: rest) st2
    refine ⟨?_, ?_⟩
    · simp only [v0_bulkPages, hx]
      exact ih1
    · simp only [v0_bulkPages, hx]
      rw [ih2, hfil]
      simp [List.append_assoc]

theorem v1_single_ready (dev : Device) (env : Env) (fuel bs : Nat) (hfuel : 0 < fuel)
    (hready : ∀ i, statusErr (env.status i % 256) = false ∧
      statusNotBusy (env.status i % 256) = true) :
    ∀ (pages : List (Nat × List Nat)) (st : St),
    (v1_singlePages dev env fuel bs pages st).1 = Except.ok () ∧
    (v1_singlePages dev env fuel bs pages st).2.events.filter isDataEvent =
      st.events.filter isDataEvent ++
        pages.map fun p => Event.writeDataWords p.1 p.2 bs
  | [], st => ⟨rfl, by simp [v1_singlePages]⟩
  | p :: rest, st => by
    rcases hx : NvmUpdiAvrDx.write_nvm dev env fuel p.1 p.2 true bs 0 st with ⟨res, st2⟩
    obtain ⟨hok, hfil⟩ := v1_wn_ready dev env fuel p.1 p.2 bs 0 st hfuel hready
    rw [hx] at hok hfil
    simp only at hok hfil
    subst hok
    obtain ⟨ih1, ih2⟩ := v1_single_ready dev env fuel bs hfuel hready rest st2
    refine ⟨?_, ?_⟩
    · simp only [v1_singlePages, hx]
      exact ih1
    · simp only [v1_singlePages, hx]
      rw [ih2, hfil]
      simp [List.append_assoc]

theorem v1_bulk_ready (dev : Device) (env : Env) (fuel bs : Nat) (hfuel : 0 < fuel)
    (hready : ∀ i, statusErr (env.status i % 256) = false ∧
      statusNotBusy (env.status i % 256) = true) :
    ∀ (pages : List (Nat × List Nat)) (st : St),
    (v1_bulkPages dev env fuel bs pages st).1 = Except.ok () ∧
    (v1_bulkPages dev env fuel bs pages st).2.events.filter isDataEvent =
      st.events.filter isDataEvent ++
        pages.map fun p => Event.writeDataWords p.1 p.2 bs
  | [], st => ⟨rfl, by simp [v1_bulkPages]⟩
  | [p], st => by
    obtain ⟨hok, hfil⟩ := v1_wn_ready dev env fuel p.1 p.2 bs 2 st hfuel hready
    exact ⟨hok, by simpa using hfil⟩
  | p :: q :: rest, st => by
    rcases hx : NvmUpdiAvrDx.write_nvm dev env fuel p.1 p.2 true bs 1 st with ⟨res, st2⟩
    obtain ⟨hok, hfil⟩ := v1_wn_ready dev env fuel p.1 p.2 bs 1 st hfuel hready
    rw [hx] at hok hfil
    simp only at hok hfil
    subst hok
    obtain ⟨ih1, ih2⟩ := v1_bulk_ready dev env fuel bs hfuel hready (q :: rest) st2
    refine ⟨?_, ?_⟩
    · simp only [v1_bulkPages, hx]
      exact ih1
    · simp only [v1_bulkPages, hx]
      rw [ih2, hfil]
      simp [List.append_assoc]

/-- Claim C5: for every sequence of page payloads, writing them in bulk
mode (bulk-continue for all but the last page, bulk-final for the last)
produces exactly the same final target-memory contents as writing them as
independent single-mode operations — on both controller generations.
Against a responsive device (every status read non-busy and error-free,
deadline allowing at least one read) both runs succeed, and replaying
either trace through the memory-link semantics yields the same memory. -/
theorem c5_bulk_single_equiv (dev : Device) (env : Env) (fuel r0 blocksize : Nat)
    (pages : List (Nat × List Nat)) (mem : Nat → Nat) (hfuel : 0 < fuel)
    (hready : ∀ i, statusErr (env.status i % 256) = false ∧
      statusNotBusy (env.status i % 256) = true) :
    (v0_bulkPages dev env fuel blocksize pages ⟨r0, []⟩).1 = Except.ok () ∧
    (v0_singlePages dev env fuel blocksize pages ⟨r0, []⟩).1 = Except.ok () ∧
    (∀ x, runMem mem (v0_bulkPages dev env fuel blocksize pages ⟨r0, []⟩).2.events x =
      runMem mem (v0_singlePages dev env fuel blocksize pages ⟨r0, []⟩).2.events x) ∧
    (v1_bulkPages dev env fuel blocksize pages ⟨r0, []⟩).1 = Except.ok () ∧
    (v1_singlePages dev env fuel blocksize pages ⟨r0, []⟩).1 = Except.ok () ∧
    (∀ x, runMem mem (v1_bulkPages dev env fuel blocksize pages ⟨r0, []⟩).2.events x =
      runMem mem (v1_singlePages dev env fuel blocksize pages ⟨r0, []⟩).2.events x) := by
  obtain ⟨hb0, hb0f⟩ := v0_bulk_ready dev env fuel blocksize hfuel hready pages ⟨r0, []⟩
  obtain ⟨hs0, hs0f⟩ := v0_single_ready dev env fuel blocksize hfuel hready pages ⟨r0, []⟩
  obtain ⟨hb1, hb1f⟩ := v1_bulk_ready dev env fuel blocksize hfuel hready pages ⟨r0, []⟩
  obtain ⟨hs1, hs1f⟩ := v1_single_ready dev env fuel blocksize hfuel hready pages ⟨r0, []⟩
  refine ⟨hb0, hs0, ?_, hb1, hs1, ?_⟩
  · intro x
    rw [runMem_filter, runMem_filter (v0_singlePages dev env fuel blocksize pages
      ⟨r0, []⟩).2.events, hb0f, hs0f]
  · intro x
    rw [runMem_filter, runMem_filter (v1_singlePages dev env fuel blocksize pages
      ⟨r0, []⟩).2.events, hb1f, hs1f]

/-- Witness for C5: two concrete consecutive pages written bulk vs single
against an always-ready device; both flavours succeed and the replayed
memories agree at a written location. -/
theorem c5_witness :
    (v0_bulkPages dev0 envAllReady 1 2 [(0x100, [1, 2]), (0x102, [3, 4])] ⟨0, []⟩).1 =
      Except.ok () ∧
    (v0_singlePages dev0 envAllReady 1 2 [(0x100, [1, 2]), (0x102, [3, 4])] ⟨0, []⟩).1 =
      Except.ok () ∧
    runMem (fun _ => 0xFF)
        (v0_bulkPages dev0 envAllReady 1 2 [(0x100, [1, 2]), (0x102, [3, 4])]
          ⟨0, []⟩).2.events 0x103 =
      runMem (fun _ => 0xFF)
        (v0_singlePages dev0 envAllReady 1 2 [(0x100, [1, 2]), (0x102, [3, 4])]
          ⟨0, []⟩).2.events 0x103 ∧
    runMem (fun _ => 0xFF)
        (v1_bulkPages dev0 envAllReady 1 2 [(0x100, [1, 2]), (0x102, [3, 4])]
          ⟨0, []⟩).2.events 0x103 =
      runMem (fun _ => 0xFF)
        (v1_singlePages dev0 envAllReady 1 2 [(0x100, [1, 2]), (0x102, [3, 4])]
          ⟨0, []⟩).2.events 0x103 := by
  obtain ⟨h1, h2, h3, h4, h5, h6⟩ := c5_bulk_single_equiv dev0 envAllReady 1 0 2
    [(0x100, [1, 2]), (0x102, [3, 4])] (fun _ => 0xFF) (by decide)
    (fun i => ⟨by simp [envAllReady, statusErr], by simp [envAllReady, statusNotBusy]⟩)
  exact ⟨h1, h2, h3 0x103, h6 0x103⟩
